import Mathlib

/-!
# Verification of the flvlib FLV container / H.264 parser and cutting engine

Shallow embedding of `src/lib/flvlib/tags.py` and
`src/lib/flvlib/scripts/cut_flv.py`.  Byte streams are modelled as a list of
byte values together with a cursor position; fallible operations return
`Except PErr` (the exception kinds of the source) or `Option` where only
success matters.  The byte/bit primitives (`flvlib/primitives.py` and the
external `bitstring.BitStream` library) are not part of the two source files,
so they are modelled from the specification's description of them (spec §4.1).
-/

namespace Flvlib

/-- The exception kinds relevant to parsing: `MalformedFLV` (format errors),
`EndOfFile` (primitives run out of bytes), and a bit-level read failure
(`bitstring`'s ReadError / ValueError, which is *not* caught by the
container-level handlers). -/
inductive PErr where
  | malformed
  | endOfFile
  | readError
deriving DecidableEq, Repr

/-- A seekable byte stream: the file contents plus a cursor. `f.tell()` is
`pos`; reads look at `data.drop pos`. -/
structure FS where
  data : List Nat
  pos : Nat
deriving DecidableEq, Repr

/-- The bytes from the cursor to the end of the stream. -/
def FS.rest (fs : FS) : List Nat := fs.data.drop fs.pos

/-- Move the cursor forward by `n` bytes (`f.seek(n, os.SEEK_CUR)` for
non-negative `n`; Python permits seeking past the end of the file). -/
def FS.advance (fs : FS) (n : Nat) : FS := { fs with pos := fs.pos + n }

/-- Python `f.read(n)`: return up to `n` bytes (fewer near the end of the
file, with no error) and advance the cursor by the number returned. -/
def FS.readUpTo (fs : FS) (n : Nat) : List Nat × FS :=
  let bs := fs.rest.take n
  (bs, fs.advance bs.length)

/-- Modelled from the spec: read exactly `n` bytes or fail with the
end-of-stream condition (spec §4.1: "All primitives fail with an
end-of-stream condition when insufficient bytes/bits remain"). -/
def getBytes (fs : FS) (n : Nat) : Except PErr (List Nat × FS) :=
  let bs := fs.rest.take n
  if bs.length = n then .ok (bs, fs.advance n) else .error .endOfFile

/-- Big-endian value of a byte list. -/
def beVal (bs : List Nat) : Nat := bs.foldl (fun a b => a * 256 + b) 0

/-- Modelled from the spec: `get_ui8`. -/
def getUI8 (fs : FS) : Except PErr (Nat × FS) := do
  let (bs, fs) ← getBytes fs 1
  .ok (beVal bs, fs)

/-- Modelled from the spec: `get_ui16` (big-endian). -/
def getUI16 (fs : FS) : Except PErr (Nat × FS) := do
  let (bs, fs) ← getBytes fs 2
  .ok (beVal bs, fs)

/-- Modelled from the spec: `get_ui24` (big-endian). -/
def getUI24 (fs : FS) : Except PErr (Nat × FS) := do
  let (bs, fs) ← getBytes fs 3
  .ok (beVal bs, fs)

/-- Modelled from the spec: `get_ui32` (big-endian). -/
def getUI32 (fs : FS) : Except PErr (Nat × FS) := do
  let (bs, fs) ← getBytes fs 4
  .ok (beVal bs, fs)

/-- Modelled from the spec: `get_si32_extended` — a 24-bit value followed by
an 8-bit high-order extension byte, reconstructed as `(high << 24) | low24`
interpreted as a two's-complement signed 32-bit integer (spec §4.1). -/
def getSI32Extended (fs : FS) : Except PErr (Int × FS) := do
  let (v, fs) ← getUI24 fs
  let (h, fs) ← getUI8 fs
  let u := h * 16777216 + v
  .ok (if u < 2147483648 then (u : Int) else (u : Int) - 4294967296, fs)

/-- Modelled from the spec: `make_ui8`. -/
def makeUI8 (n : Nat) : List Nat := [n % 256]

/-- Modelled from the spec: `make_ui16` (big-endian). -/
def makeUI16 (n : Nat) : List Nat := [n / 256 % 256, n % 256]

/-- Modelled from the spec: `make_ui24` (big-endian). -/
def makeUI24 (n : Nat) : List Nat := [n / 65536 % 256, n / 256 % 256, n % 256]

/-- Modelled from the spec: `make_ui32` (big-endian). -/
def makeUI32 (n : Nat) : List Nat :=
  [n / 16777216 % 256, n / 65536 % 256, n / 256 % 256, n % 256]

/-- Modelled from the spec: `make_si32_extended` — the low 24 bits of the
two's complement representation as a big-endian 24-bit value, followed by the
high-order byte. -/
def makeSI32Extended (t : Int) : List Nat :=
  let u := (t % 4294967296).toNat
  makeUI24 (u % 16777216) ++ makeUI8 (u / 16777216)

/-! ## Bit reader

Modelled from the spec (§4.1): a most-significant-bit-first bit cursor over a
byte buffer supporting fixed-width unsigned fields, unsigned Exponential-Golomb
(`ue`) and signed Exponential-Golomb (`se`) codes.  This stands in for the
external `bitstring.BitStream` objects used by `tags.py`. -/

/-- The eight bits of a byte, most significant first. -/
def byteBits (b : Nat) : List Bool :=
  [b / 128 % 2 == 1, b / 64 % 2 == 1, b / 32 % 2 == 1, b / 16 % 2 == 1,
   b / 8 % 2 == 1, b / 4 % 2 == 1, b / 2 % 2 == 1, b % 2 == 1]

/-- The bit string of a byte list, most significant bit of each byte first. -/
def bytesBits (bs : List Nat) : List Bool := (bs.map byteBits).flatten

/-- Read a fixed-width unsigned field (`s.read('uint:n')`), MSB first.
Fails when fewer than `n` bits remain. -/
def readBitsN : Nat → List Bool → Option (Nat × List Bool)
  | 0, bs => some (0, bs)
  | _ + 1, [] => none
  | n + 1, b :: r =>
      (readBitsN n r).map (fun p => ((if b then 1 else 0) * 2 ^ n + p.1, p.2))

/-- Count the leading zero bits up to and including the terminating one bit
of an Exponential-Golomb code.  Fails at end of stream. -/
def countLeadZeros : List Bool → Option (Nat × List Bool)
  | [] => none
  | true :: r => some (0, r)
  | false :: r => (countLeadZeros r).map (fun p => (p.1 + 1, p.2))

/-- Unsigned Exponential-Golomb (`s.read('ue')`): count leading zero bits
`k`, read `k` more bits as `suffix`, value `2^k - 1 + suffix` (spec §4.1). -/
def readUE (bs : List Bool) : Option (Nat × List Bool) := do
  let (k, r) ← countLeadZeros bs
  let (suffix, r) ← readBitsN k r
  some (2 ^ k - 1 + suffix, r)

/-- Signed Exponential-Golomb (`s.read('se')`): read `ue` value `v`, return
`(-1)^(v+1) * ceil(v/2)` (spec §4.1). -/
def readSE (bs : List Bool) : Option (Int × List Bool) := do
  let (v, r) ← readUE bs
  some (if v % 2 = 1 then ((v + 1) / 2 : Nat) else -((v / 2 : Nat) : Int), r)

/-! ### Basic facts about the primitives -/

theorem FS.rest_advance (fs : FS) (n : Nat) :
    (fs.advance n).rest = fs.rest.drop n := by
  simp [FS.rest, FS.advance, List.drop_drop, Nat.add_comm]

theorem getBytes_of_take (fs : FS) (n : Nat)
    (h : (fs.rest.take n).length = n) :
    getBytes fs n = .ok (fs.rest.take n, fs.advance n) := by
  simp [getBytes, h]

theorem readBitsN_lt (n : Nat) :
    ∀ (bs : List Bool) (v : Nat) (r : List Bool),
      readBitsN n bs = some (v, r) → v < 2 ^ n := by
  induction n with
  | zero =>
      intro bs v r h
      simp [readBitsN] at h
      omega
  | succ n ih =>
      intro bs v r h
      match bs with
      | [] => simp [readBitsN] at h
      | b :: t =>
          simp only [readBitsN, Option.map_eq_some'] at h
          obtain ⟨⟨w, r2⟩, hrec, heq⟩ := h
          have hlt := ih t w r2 hrec
          cases heq
          cases b <;> simp [Nat.pow_succ] <;> omega

/-! ## H.264 SPS decoder (tags.py lines 281-397)

`SPS.parse_sps_data` decodes the sequence-parameter-set syntax from the NALU
payload bytes and derives `width`/`height`.  The embedding splits the method
at line 380/381: `parseRawSPS` performs the bitstream reads (lines 328-380)
and `finishSPS` the crop scaling and dimension arithmetic (lines 381-397).
Fields that the source initialises as class-level defaults of `-1` keep that
default when their read is skipped, so they are `Int`-valued. -/

/-- The four frame-cropping offsets; list indices 0..3 of
`frame_crop_offsets` are named via `CROP_LEFT = 0`, `CROP_RIGHT = 1`,
`CROP_TOP = 2`, `CROP_BOTTOM = 3` (tags.py lines 281-284). -/
structure CropOffsets where
  left : Int
  right : Int
  top : Int
  bottom : Int
deriving DecidableEq, Repr

/-- `SPS.chroma_profiles` (tags.py line 286). -/
def chromaProfiles : List Int := [100, 110, 122, 244, 44, 83, 86, 118, 128, 134, 138, 139]

/-- The fields read by the profile-gated block of `parse_sps_data`
(tags.py lines 338-355). -/
structure ChromaFields where
  chroma_format_idc : Int
  separate_color_plane_flag : Int
  bit_depth_luma_minus8 : Int
  bit_depth_chroma_minus8 : Int
  qpprime_y_zero_transform_bypass_flag : Int
  seq_scaling_matrix_present_flag : Int
deriving DecidableEq, Repr

/-- Class-attribute defaults for the chroma block (tags.py lines 306-311):
each field is the shared default `-1` until its read executes. -/
def defaultChromaFields : ChromaFields := ⟨-1, -1, -1, -1, -1, -1⟩

/-- One scaling list skip (tags.py lines 351-355): read `size` `ue` deltas. -/
def skipScalingList (size : Nat) (bs : List Bool) : Option (List Bool) :=
  (List.range size).foldlM (fun b _ => (readUE b).map (fun p => p.2)) bs

/-- The scaling-list loop (tags.py lines 346-355).  The source reads the
`seq_scaling_list_present` bit once (not once per list) and reuses it for
every list; list `i` has 16 deltas for `i < 6` and 64 otherwise. -/
def skipScalingLists (count : Nat) (present : Nat) (bs : List Bool) :
    Option (List Bool) :=
  (List.range count).foldlM
    (fun b i =>
      if present ≠ 0 then skipScalingList (if i < 6 then 16 else 64) b
      else some b)
    bs

/-- The conditional `separate_color_plane_flag` read (tags.py lines
340-341): only `chroma_format_idc == 3` reads the bit; otherwise the `-1`
class default stands. -/
def readSepFlag (idc : Nat) (bs : List Bool) : Option (Int × List Bool) :=
  if idc = 3 then
    match readBitsN 1 bs with
    | none => none
    | some (b, bs) => some ((b : Int), bs)
  else some (-1, bs)

/-- The conditional scaling-list skip (tags.py lines 346-355): when
`seq_scaling_matrix_present_flag` was set, read the single
`seq_scaling_list_present` bit and skip the lists. -/
def readScalingSkip (idc scal : Nat) (bs : List Bool) : Option (List Bool) :=
  if scal ≠ 0 then
    match readBitsN 1 bs with
    | none => none
    | some (present, bs) =>
        skipScalingLists (if idc = 3 then 12 else 8) present bs
  else some bs

/-- tags.py lines 338-355: the chroma/bit-depth/scaling-matrix block of
`parse_sps_data`, executed only for profiles in `chroma_profiles`;
`separate_color_plane_flag` is read only when `chroma_format_idc == 3`. -/
def parseChromaBlock (profile_idc : Int) (bs : List Bool) :
    Option (ChromaFields × List Bool) :=
  if profile_idc ∈ chromaProfiles then do
    let (idc, bs) ← readUE bs
    let (sep, bs) ← readSepFlag idc bs
    let (bdl, bs) ← readUE bs
    let (bdc, bs) ← readUE bs
    let (qp, bs) ← readBitsN 1 bs
    let (scal, bs) ← readBitsN 1 bs
    let bs ← readScalingSkip idc scal bs
    some (⟨(idc : Int), sep, (bdl : Int), (bdc : Int), (qp : Int), (scal : Int)⟩, bs)
  else some (defaultChromaFields, bs)

/-- The picture-order-count fields of `parse_sps_data`
(tags.py lines 360-368). -/
structure POCFields where
  pic_order_cnt_type : Int
  log2_max_pic_order_cnt_lsb_minus4 : Int
  delta_pic_order_always_zero_flag : Int
  offset_for_non_ref_pic : Int
  offset_for_top_to_bottom_field : Int
  num_ref_frames_in_pic_order_cnt_cycle : Int
deriving DecidableEq, Repr

/-- Class-attribute defaults for the POC block (tags.py lines 297-316). -/
def defaultPOCFields : POCFields := ⟨-1, -1, -1, -1, -1, -1⟩

/-- tags.py lines 360-368.  In the `pic_order_cnt_type == 1` branch the
source ends with `s.readlist('4*')` (line 368), an invalid `bitstring`
format string that raises; the branch is modelled as a parse failure after
its preceding reads. -/
def parsePOCBlock (bs : List Bool) : Option (POCFields × List Bool) := do
  let (poc, bs) ← readUE bs
  if poc = 0 then do
    let (lsb, bs) ← readUE bs
    some (⟨(poc : Int), (lsb : Int), -1, -1, -1, -1⟩, bs)
  else if poc = 1 then do
    let (_, bs) ← readBitsN 1 bs
    let (_, bs) ← readSE bs
    let (_, bs) ← readSE bs
    let (_, _) ← readUE bs
    none
  else
    some (⟨(poc : Int), -1, -1, -1, -1, -1⟩, bs)

/-- `readlist('4*uint:1')` for the constraint flags (tags.py line 334). -/
def readFlags4 (bs : List Bool) : Option (List Nat × List Bool) := do
  let (a, bs) ← readBitsN 1 bs
  let (b, bs) ← readBitsN 1 bs
  let (c, bs) ← readBitsN 1 bs
  let (d, bs) ← readBitsN 1 bs
  some ([a, b, c, d], bs)

/-- `readlist('4*ue')` for the crop offsets (tags.py line 379), in index
order left, right, top, bottom. -/
def readCrop4 (bs : List Bool) : Option (CropOffsets × List Bool) := do
  let (l, bs) ← readUE bs
  let (r, bs) ← readUE bs
  let (t, bs) ← readUE bs
  let (b, bs) ← readUE bs
  some (⟨(l : Int), (r : Int), (t : Int), (b : Int)⟩, bs)

/-- The state of an `SPS` object at line 380 of tags.py, after all bitstream
reads of `parse_sps_data` and before the derived-dimension block. -/
structure RawSPS where
  forbidden_bit : Int
  nal_ref_idc : Int
  nal_unit_type : Int
  profile_idc : Int
  constraint_flags : List Nat
  reserved_bits : Int
  level_idc : Int
  seq_parameter_set_id : Int
  chroma : ChromaFields
  log2_max_frame_num_minus4 : Int
  log2_max_frame_num : Int
  poc : POCFields
  max_num_ref_frames : Int
  gaps_in_frame_num_value_allowed_flag : Int
  pic_width_in_mbs_minus1 : Int
  pic_height_in_map_units_minus1 : Int
  frame_mbs_only_flag : Int
  mb_adaptive_frame_field_flag : Int
  direct_8x8_inference_flag : Int
  frame_cropping_flag : Int
  frame_crop_offsets : CropOffsets
  vui_parameters_present_flag : Int

/-- The fixed-width header fields of the SPS payload
(tags.py lines 330-337). -/
structure SPSHead where
  forbidden_bit : Int
  nal_ref_idc : Int
  nal_unit_type : Int
  profile_idc : Int
  constraint_flags : List Nat
  reserved_bits : Int
  level_idc : Int
  seq_parameter_set_id : Int
deriving DecidableEq, Repr

/-- tags.py lines 330-337: forbidden bit through `seq_parameter_set_id`. -/
def parseSPSHead (bs : List Bool) : Option (SPSHead × List Bool) := do
  let (forbidden, bs) ← readBitsN 1 bs
  let (refIdc, bs) ← readBitsN 2 bs
  let (unitType, bs) ← readBitsN 5 bs
  let (profile, bs) ← readBitsN 8 bs
  let (cflags, bs) ← readFlags4 bs
  let (reservedBits, bs) ← readBitsN 4 bs
  let (level, bs) ← readBitsN 8 bs
  let (spsId, bs) ← readUE bs
  some (⟨(forbidden : Int), (refIdc : Int), (unitType : Int), (profile : Int),
    cflags, (reservedBits : Int), (level : Int), (spsId : Int)⟩, bs)

/-- The reference/dimension fields (tags.py lines 370-376). -/
structure SPSDims where
  max_num_ref_frames : Int
  gaps_in_frame_num_value_allowed_flag : Int
  pic_width_in_mbs_minus1 : Int
  pic_height_in_map_units_minus1 : Int
  frame_mbs_only_flag : Int
  mb_adaptive_frame_field_flag : Int
deriving DecidableEq, Repr

/-- tags.py lines 370-376: `max_num_ref_frames` through the conditional
`mb_adaptive_frame_field_flag` (read only when `frame_mbs_only_flag == 0`,
else left at the `-1` class default). -/
def parseSPSDims (bs : List Bool) : Option (SPSDims × List Bool) := do
  let (maxRef, bs) ← readUE bs
  let (gaps, bs) ← readBitsN 1 bs
  let (picW, bs) ← readUE bs
  let (picH, bs) ← readUE bs
  let (fmof, bs) ← readBitsN 1 bs
  let (mbAff, bs) ←
    if fmof = 0 then do
      let (m, bs) ← readBitsN 1 bs
      some ((m : Int), bs)
    else some ((-1 : Int), bs)
  some (⟨(maxRef : Int), (gaps : Int), (picW : Int), (picH : Int),
    (fmof : Int), mbAff⟩, bs)

/-- The trailing flags and crop offsets (tags.py lines 377-380). -/
structure SPSCropBlock where
  direct_8x8_inference_flag : Int
  frame_cropping_flag : Int
  frame_crop_offsets : CropOffsets
  vui_parameters_present_flag : Int
deriving DecidableEq, Repr

/-- tags.py lines 377-380: `direct_8x8_inference_flag`,
`frame_cropping_flag`, the four crop offsets (read unconditionally, whatever
`frame_cropping_flag` held) and `vui_parameters_present_flag`. -/
def parseSPSCropBlock (bs : List Bool) : Option (SPSCropBlock × List Bool) := do
  let (d8x8, bs) ← readBitsN 1 bs
  let (cropFlag, bs) ← readBitsN 1 bs
  let (crop, bs) ← readCrop4 bs
  let (vui, bs) ← readBitsN 1 bs
  some (⟨(d8x8 : Int), (cropFlag : Int), crop, (vui : Int)⟩, bs)

/-- tags.py lines 328-380: the bitstream reads of `SPS.parse_sps_data`,
assembled from the stage parsers above in source order. -/
def parseRawSPS (data : List Nat) : Option RawSPS := do
  let bs := bytesBits data
  let (head, bs) ← parseSPSHead bs
  let (chroma, bs) ← parseChromaBlock head.profile_idc bs
  let (l2mfn4, bs) ← readUE bs
  let (poc, bs) ← parsePOCBlock bs
  let (dims, bs) ← parseSPSDims bs
  let (cropb, _) ← parseSPSCropBlock bs
  some ⟨head.forbidden_bit, head.nal_ref_idc, head.nal_unit_type,
    head.profile_idc, head.constraint_flags, head.reserved_bits,
    head.level_idc, head.seq_parameter_set_id, chroma,
    (l2mfn4 : Int), (l2mfn4 : Int) + 4, poc, dims.max_num_ref_frames,
    dims.gaps_in_frame_num_value_allowed_flag, dims.pic_width_in_mbs_minus1,
    dims.pic_height_in_map_units_minus1, dims.frame_mbs_only_flag,
    dims.mb_adaptive_frame_field_flag, cropb.direct_8x8_inference_flag,
    cropb.frame_cropping_flag, cropb.frame_crop_offsets,
    cropb.vui_parameters_present_flag⟩

/-- A fully parsed `SPS`: the raw fields with the crop offsets as mutated in
place by lines 384-394 and the derived `width`/`height`. -/
structure SPS where
  forbidden_bit : Int
  nal_ref_idc : Int
  nal_unit_type : Int
  profile_idc : Int
  constraint_flags : List Nat
  reserved_bits : Int
  level_idc : Int
  seq_parameter_set_id : Int
  chroma : ChromaFields
  log2_max_frame_num_minus4 : Int
  log2_max_frame_num : Int
  poc : POCFields
  max_num_ref_frames : Int
  gaps_in_frame_num_value_allowed_flag : Int
  pic_width_in_mbs_minus1 : Int
  pic_height_in_map_units_minus1 : Int
  frame_mbs_only_flag : Int
  mb_adaptive_frame_field_flag : Int
  direct_8x8_inference_flag : Int
  frame_cropping_flag : Int
  frame_crop_offsets : CropOffsets
  vui_parameters_present_flag : Int
  width : Int
  height : Int

/-- tags.py lines 381-397: derive `width`/`height` and scale the crop
offsets in place.  The first branch tests Python truthiness of
`separate_color_plane_flag` (non-zero, which includes the `-1` class
default) or `chroma_format_idc == 0`; the `elif` then requires
`separate_color_plane_flag == 0` and `chroma_format_idc > 0`. -/
def finishSPS (r : RawSPS) : SPS :=
  let w0 : Int := 16 * (r.pic_width_in_mbs_minus1 + 1)
  let h0 : Int :=
    16 * (2 - r.frame_mbs_only_flag) * (r.pic_height_in_map_units_minus1 + 1)
  let c0 := r.frame_crop_offsets
  let c :=
    if r.chroma.separate_color_plane_flag ≠ 0 ∨ r.chroma.chroma_format_idc = 0 then
      { c0 with bottom := c0.bottom * (2 - r.frame_mbs_only_flag),
                top := c0.top * (2 - r.frame_mbs_only_flag) }
    else if r.chroma.separate_color_plane_flag = 0 ∧ r.chroma.chroma_format_idc > 0 then
      let c1 :=
        if r.chroma.chroma_format_idc = 1 ∨ r.chroma.chroma_format_idc = 2 then
          { c0 with left := c0.left * 2, right := c0.right * 2 }
        else c0
      if r.chroma.chroma_format_idc = 1 then
        { c1 with top := c1.top * 2, bottom := c1.bottom * 2 }
      else c1
    else c0
  ⟨r.forbidden_bit, r.nal_ref_idc, r.nal_unit_type, r.profile_idc,
   r.constraint_flags, r.reserved_bits, r.level_idc, r.seq_parameter_set_id,
   r.chroma, r.log2_max_frame_num_minus4, r.log2_max_frame_num, r.poc,
   r.max_num_ref_frames, r.gaps_in_frame_num_value_allowed_flag,
   r.pic_width_in_mbs_minus1, r.pic_height_in_map_units_minus1,
   r.frame_mbs_only_flag, r.mb_adaptive_frame_field_flag,
   r.direct_8x8_inference_flag, r.frame_cropping_flag, c,
   r.vui_parameters_present_flag,
   w0 - (c.left + c.right), h0 - (c.top + c.bottom)⟩

/-- `SPS.parse_sps_data` end to end. -/
def parseSPSData (data : List Nat) : Option SPS := (parseRawSPS data).map finishSPS

/-! ### Claim C2: derived width/height -/

/-- A successful `separate_color_plane_flag` read yields the `-1` default
or a decoded bit, and a decoded bit forces `chroma_format_idc = 3`. -/
theorem readSepFlag_cases (idc : Nat) (bs : List Bool) (v : Int)
    (r : List Bool) (h : readSepFlag idc bs = some (v, r)) :
    v = -1 ∨ (idc = 3 ∧ (v = 0 ∨ v = 1)) := by
  unfold readSepFlag at h
  split at h
  case isTrue h3 =>
    match hb : readBitsN 1 bs with
    | none =>
        rw [hb] at h
        exact absurd h (by simp)
    | some (b, bs2) =>
        rw [hb] at h
        simp only [Option.some.injEq, Prod.mk.injEq] at h
        obtain ⟨hv, -⟩ := h
        have hlt : b < 2 ^ 1 := readBitsN_lt 1 bs b bs2 hb
        right
        refine ⟨h3, ?_⟩
        subst hv
        interval_cases b
        · exact Or.inl rfl
        · exact Or.inr rfl
  case isFalse =>
    simp only [Option.some.injEq, Prod.mk.injEq] at h
    exact Or.inl h.1.symm

/-- A successful chroma block leaves `separate_color_plane_flag` either at
its `-1` class default (profile without the block, or `chroma_format_idc`
different from 3) or at a decoded bit, and a decoded bit forces
`chroma_format_idc = 3`. -/
theorem parseChromaBlock_sep (p : Int) (bs0 : List Bool) (c : ChromaFields)
    (r : List Bool) (h : parseChromaBlock p bs0 = some (c, r)) :
    c.separate_color_plane_flag = -1 ∨
      (c.chroma_format_idc = 3 ∧
        (c.separate_color_plane_flag = 0 ∨ c.separate_color_plane_flag = 1)) := by
  unfold parseChromaBlock at h
  split at h
  · simp only [bind, Option.bind_eq_some] at h
    obtain ⟨⟨idc, bs1⟩, h1, h⟩ := h
    obtain ⟨⟨sep, bs2⟩, h2, h⟩ := h
    obtain ⟨⟨bdl, bs3⟩, h3, h⟩ := h
    obtain ⟨⟨bdc, bs4⟩, h4, h⟩ := h
    obtain ⟨⟨qp, bs5⟩, h5, h⟩ := h
    obtain ⟨⟨scal, bs6⟩, h6, h⟩ := h
    obtain ⟨bs7, h7, h⟩ := h
    simp only [Option.some.injEq, Prod.mk.injEq] at h
    obtain ⟨hc, -⟩ := h
    subst hc
    rcases readSepFlag_cases idc bs1 sep bs2 h2 with hsep | ⟨hidc, hsep⟩
    · exact Or.inl hsep
    · subst hidc
      exact Or.inr ⟨rfl, hsep⟩
  · simp only [Option.some.injEq, Prod.mk.injEq] at h
    obtain ⟨hc, -⟩ := h
    subst hc
    exact Or.inl rfl

/-- A successful raw-SPS parse obtains its chroma fields from
`parseChromaBlock`, so the `separate_color_plane_flag` invariant holds of
the stored record. -/
theorem parseRawSPS_chroma (data : List Nat) (raw : RawSPS)
    (h : parseRawSPS data = some raw) :
    raw.chroma.separate_color_plane_flag = -1 ∨
      (raw.chroma.chroma_format_idc = 3 ∧
        (raw.chroma.separate_color_plane_flag = 0 ∨
          raw.chroma.separate_color_plane_flag = 1)) := by
  unfold parseRawSPS at h
  simp only [bind, Option.bind_eq_some] at h
  obtain ⟨⟨head, bs1⟩, h1, h⟩ := h
  obtain ⟨⟨chroma, bs2⟩, h2, h⟩ := h
  obtain ⟨⟨l2, bs3⟩, h3, h⟩ := h
  obtain ⟨⟨poc, bs4⟩, h4, h⟩ := h
  obtain ⟨⟨dims, bs5⟩, h5, h⟩ := h
  obtain ⟨⟨cropb, bs6⟩, h6, h⟩ := h
  simp only [Option.some.injEq] at h
  subst h
  exact parseChromaBlock_sep head.profile_idc bs1 chroma bs2 h2

/-- C2 (corrected).  For every successfully parsed SPS the derived width is
`16 * (pic_width_in_mbs_minus1 + 1)` minus the *unscaled* left and right
crop offsets, and the derived height is
`16 * (2 - frame_mbs_only_flag) * (pic_height_in_map_units_minus1 + 1)`
minus the top and bottom crop offsets scaled by `(2 - frame_mbs_only_flag)`
— except when `chroma_format_idc` was decoded as 3 with
`separate_color_plane_flag` decoded as 0, where the crop offsets are not
scaled at all.  The chroma-format-dependent 2x scalings of lines 387-394
are unreachable because the undecoded `separate_color_plane_flag` default
`-1` is truthy in the line 384 test. -/
theorem C2_sps_width_height (data : List Nat) (s : SPS)
    (h : parseSPSData data = some s) :
    ∃ raw : RawSPS, parseRawSPS data = some raw ∧ s = finishSPS raw ∧
      s.width = 16 * (raw.pic_width_in_mbs_minus1 + 1)
          - (raw.frame_crop_offsets.left + raw.frame_crop_offsets.right) ∧
      s.height = 16 * (2 - raw.frame_mbs_only_flag)
            * (raw.pic_height_in_map_units_minus1 + 1)
          - (if raw.chroma.separate_color_plane_flag = 0 ∧
                raw.chroma.chroma_format_idc = 3
             then 1 else 2 - raw.frame_mbs_only_flag)
            * (raw.frame_crop_offsets.top + raw.frame_crop_offsets.bottom) := by
  simp only [parseSPSData, Option.map_eq_some'] at h
  obtain ⟨raw, hraw, hs⟩ := h
  have hinv := parseRawSPS_chroma data raw hraw
  subst hs
  refine ⟨raw, hraw, rfl, ?_, ?_⟩ <;>
  · unfold finishSPS
    dsimp only
    rcases hinv with hsep | ⟨hidc, hsep⟩ <;> split_ifs with hA hB hC <;>
      simp_all <;> try ring

/-- The claim's stated horizontal crop scale: "scaled 2x horizontally
unless separate_color_plane_flag is set or chroma_format_idc is 0". -/
def claimC2HScale (raw : RawSPS) : Int :=
  if raw.chroma.separate_color_plane_flag = 1 ∨ raw.chroma.chroma_format_idc = 0
  then 1 else 2

/-- The width formula exactly as claim C2 states it. -/
def claimC2Width (raw : RawSPS) : Int :=
  16 * (raw.pic_width_in_mbs_minus1 + 1)
    - claimC2HScale raw
      * (raw.frame_crop_offsets.left + raw.frame_crop_offsets.right)

/-- The SPS payload of the C2 counterexample: profile 100 (a chroma
profile) with `chroma_format_idc = 3`, `separate_color_plane_flag = 0`,
`pic_width_in_mbs_minus1 = 1`, left and right crop offsets 1. -/
def spsCexData : List Nat := [0x67, 0x64, 0x00, 0x28, 0x91, 0x97, 0x2D, 0x4B, 0x00]

/-- The raw fields that `parseRawSPS` extracts from `spsCexData`. -/
def spsCexRaw : RawSPS :=
  ⟨0, 3, 7, 100, [0, 0, 0, 0], 0, 40, 0, ⟨3, 0, 0, 0, 0, 0⟩, 0, 4,
    ⟨2, -1, -1, -1, -1, -1⟩, 0, 0, 1, 0, 1, -1, 0, 1, ⟨1, 1, 0, 0⟩, 0⟩

/-- C2 counterexample: on `spsCexData` the code derives width `30`
(crop offsets unscaled), while the claim's stated rule (2x horizontal
scaling, since `separate_color_plane_flag` is decoded 0 and
`chroma_format_idc` is 3, not 0) demands `28`. -/
theorem C2_counterexample :
    parseRawSPS spsCexData = some spsCexRaw ∧
    parseSPSData spsCexData = some (finishSPS spsCexRaw) ∧
    (finishSPS spsCexRaw).width = 30 ∧ claimC2Width spsCexRaw = 28 ∧
    (30 : Int) ≠ 28 := by
  refine ⟨rfl, rfl, rfl, rfl, by decide⟩

/-- Witness for C2: the amended theorem applied to the concrete parse of
`spsCexData`. -/
theorem C2_sps_width_height_witness :
    ∃ raw : RawSPS, parseRawSPS spsCexData = some raw ∧
      finishSPS spsCexRaw = finishSPS raw ∧
      (finishSPS spsCexRaw).width = 16 * (raw.pic_width_in_mbs_minus1 + 1)
          - (raw.frame_crop_offsets.left + raw.frame_crop_offsets.right) ∧
      (finishSPS spsCexRaw).height = 16 * (2 - raw.frame_mbs_only_flag)
            * (raw.pic_height_in_map_units_minus1 + 1)
          - (if raw.chroma.separate_color_plane_flag = 0 ∧
                raw.chroma.chroma_format_idc = 3
             then 1 else 2 - raw.frame_mbs_only_flag)
            * (raw.frame_crop_offsets.top + raw.frame_crop_offsets.bottom) :=
  C2_sps_width_height spsCexData (finishSPS spsCexRaw) rfl

/-! ## FLV tag model (tags.py)

Constants from `flvlib/constants.py` are not among the source files; the tag
type bytes are fixed by spec §6 (audio=8, video=9, script(AMF0)=18,
script(AMF3)=15) and the H.264 packet types by spec §3 (sequence-header=0,
NALU=1, sequence-end=2); the remaining values are the public FLV format
registry values the spec refers to. -/

/-- Modelled from the spec: `TAG_TYPE_AUDIO` (spec §6). -/
def TAG_TYPE_AUDIO : Nat := 8

/-- Modelled from the spec: `TAG_TYPE_VIDEO` (spec §6). -/
def TAG_TYPE_VIDEO : Nat := 9

/-- Modelled from the spec: `TAG_TYPE_SCRIPT_AMF3` (spec §6). -/
def TAG_TYPE_SCRIPT_AMF3 : Nat := 15

/-- Modelled from the spec: `TAG_TYPE_SCRIPT` (spec §6). -/
def TAG_TYPE_SCRIPT : Nat := 18

/-- Modelled from the spec: H.264 packet type 0 (spec §3/§6). -/
def H264_PACKET_TYPE_SEQUENCE_HEADER : Nat := 0

/-- Modelled from the spec: H.264 packet type 1 (spec §3/§6). -/
def H264_PACKET_TYPE_NALU : Nat := 1

/-- Modelled from the spec: the FLV registry codec id for H.264. -/
def CODEC_ID_H264 : Nat := 7

/-- Modelled from the spec: the FLV registry keyframe frame type. -/
def FRAME_TYPE_KEYFRAME : Nat := 1

/-- Modelled from the spec: the FLV registry AAC sound format. -/
def SOUND_FORMAT_AAC : Nat := 10

/-- Modelled from the spec: the FLV registry 44 kHz sound rate. -/
def SOUND_RATE_44_KHZ : Nat := 3

/-- Modelled from the spec: the FLV registry stereo sound type. -/
def SOUND_TYPE_STEREO : Nat := 1

/-- Modelled from the spec: the sound formats with an entry in
`sound_format_to_string` (FLV registry formats 0-11, 14, 15). -/
def knownSoundFormats : List Nat := [0, 1, 2, 3, 4, 5, 6, 7, 8, 9, 10, 11, 14, 15]

/-- Modelled from the spec: the AAC packet types with an entry in
`aac_packet_type_to_string` (0 = sequence header, 1 = raw). -/
def knownAACPacketTypes : List Nat := [0, 1]

/-- Modelled from the spec: the frame types with an entry in
`frame_type_to_string` (FLV registry frame types 1-5). -/
def knownFrameTypes : List Nat := [1, 2, 3, 4, 5]

/-- Modelled from the spec: the codec ids with an entry in
`codec_id_to_string` (FLV registry codecs 1-7). -/
def knownCodecIDs : List Nat := [1, 2, 3, 4, 5, 6, 7]

/-- Modelled from the spec: the H.264 packet types with an entry in
`h264_packet_type_to_string` (spec §3: 0, 1, 2). -/
def knownH264PacketTypes : List Nat := [0, 1, 2]

/-- tags.py line 15: the module-level `frame_num_width`. -/
def frame_num_width : Nat := 4

/-- `ensure(value, expected, error_msg)` (tags.py lines 25-32): a mismatch
raises `MalformedFLV` when `STRICT_PARSING` holds and only logs a warning
otherwise. -/
def ensureChk (strict : Bool) (value expected : Nat) : Except PErr Unit :=
  if value = expected then .ok ()
  else if strict then .error .malformed
  else .ok ()

/-- `f.seek(d, os.SEEK_CUR)` with a possibly negative displacement
(`AudioTag.parse_tag_content` line 140 can produce one); a negative
resulting position is an OS error outside the caught exception kinds. -/
def seekCur (fs : FS) (d : Int) : Except PErr FS :=
  if (fs.pos : Int) + d < 0 then .error .readError
  else .ok ⟨fs.data, ((fs.pos : Int) + d).toNat⟩

/-! ### NALU parsing (tags.py lines 221-278) -/

/-- A parsed `NALU` object.  The slice-header attributes exist only for
unit types 1 and 5 (tags.py lines 259-264). -/
structure NALURec where
  offset : Nat
  size : Nat
  data : List Nat
  forbidden_bit : Nat
  nal_ref_idc : Nat
  nal_unit_type : Nat
  type : Nat
  first_mb_in_slice : Option Nat
  slice_type : Option Nat
  pic_parameter_set_id : Option Nat
  frame_num : Option Nat

/-- The width-dispatched length-prefix read of `NALU.parse_tag_content`
(tags.py lines 243-250); a width outside 1..4 reads nothing and leaves the
constructor's `size = 0` (line 224). -/
def readSizeW (sizeWidth : Nat) (fs : FS) : Except PErr (Nat × FS) :=
  if sizeWidth = 1 then getUI8 fs
  else if sizeWidth = 2 then getUI16 fs
  else if sizeWidth = 3 then getUI24 fs
  else if sizeWidth = 4 then getUI32 fs
  else .ok (0, fs)

/-- The slice-header reads for coded-slice NALUs (tags.py lines 261-264);
`frame_num` is read as an unsigned field of the supplied width. -/
def readSliceHeader (fnw : Nat) (bits : List Bool) :
    Option (Nat × Nat × Nat × Nat) := do
  let (fmb, bits) ← readUE bits
  let (st, bits) ← readUE bits
  let (pps, bits) ← readUE bits
  let (fn, _) ← readBitsN fnw bits
  some (fmb, st, pps, fn)

/-- `NALU.parse_tag_content` (tags.py lines 241-264), parameterised by the
`frame_num_width` value in scope (the module global, line 15).  The
length-prefixed payload is read with Python `f.read` semantics (short reads
return fewer bytes); the `BitStream` field reads fail with a bit-level read
error when the payload is too short. -/
def naluParseContentW (fnw : Nat) (sizeWidth : Nat) (fs : FS) :
    Except PErr (NALURec × FS) := do
  let offset := fs.pos
  let (size, fs) ← readSizeW sizeWidth fs
  let (data, fs) := fs.readUpTo size
  match readBitsN 1 (bytesBits data) with
  | none => .error .readError
  | some (forbidden, bits) =>
    match readBitsN 2 bits with
    | none => .error .readError
    | some (refIdc, bits) =>
      match readBitsN 5 bits with
      | none => .error .readError
      | some (unitType, bits) =>
        if unitType = 1 ∨ unitType = 5 then
          match readSliceHeader fnw bits with
          | none => .error .readError
          | some (fmb, st, pps, fn) =>
              .ok (⟨offset, size, data, forbidden, refIdc, unitType, unitType,
                some fmb, some st, some pps, some fn⟩, fs)
        else
          .ok (⟨offset, size, data, forbidden, refIdc, unitType, unitType,
            none, none, none, none⟩, fs)

/-- `NALU.parse_tag_content` with the module-level `frame_num_width`. -/
def naluParseContent (sizeWidth : Nat) (fs : FS) :
    Except PErr (NALURec × FS) :=
  naluParseContentW frame_num_width sizeWidth fs

/-- `NALU.write_tag_content` (tags.py lines 229-239): the length with the
requested prefix width, then the payload bytes; a width outside 1..4 emits
no length field. -/
def naluWriteContent (sizeWidth : Nat) (size : Nat) (data : List Nat) :
    List Nat :=
  (if sizeWidth = 1 then makeUI8 size
   else if sizeWidth = 2 then makeUI16 size
   else if sizeWidth = 3 then makeUI24 size
   else if sizeWidth = 4 then makeUI32 size
   else []) ++ data

/-! ### AVCDecoderConfigurationRecord (tags.py lines 159-208) -/

/-- `AVCDecoderConfigurationRecord` fields (tags.py lines 160-172). -/
structure AVCRec where
  configurationVersion : Nat
  avcProfileIndication : Nat
  profileCompatibility : Nat
  avcLevelIndication : Nat
  reserved : Nat
  RLELength : Nat
  reserved2 : Nat
  numSPS : Nat
  sps : List NALURec
  numPPS : Nat
  pps : List NALURec

/-- The SPS/PPS loops of `AVCDecoderConfigurationRecord.parse_tag_content`
(tags.py lines 185-193): `n` two-byte-length-prefixed NALU reads (the SPS
loop builds `SPS` objects but runs the same inherited
`NALU.parse_tag_content`). -/
def parseNALUList (n : Nat) (fs : FS) : Except PErr (List NALURec × FS) :=
  match n with
  | 0 => .ok ([], fs)
  | m + 1 => do
      let (nalu, fs) ← naluParseContent 2 fs
      let (rest, fs) ← parseNALUList m fs
      .ok (nalu :: rest, fs)

/-- The six leading bytes of the configuration record (tags.py lines
175-184): version, profile, compatibility, level, then the two bit-split
bytes. -/
def avcParseHead (fs : FS) :
    Except PErr ((Nat × Nat × Nat × Nat × Nat × Nat) × FS) := do
  let (cv, fs) ← getUI8 fs
  let (pi, fs) ← getUI8 fs
  let (pc, fs) ← getUI8 fs
  let (li, fs) ← getUI8 fs
  let (t1, fs) ← getUI8 fs
  let (t2, fs) ← getUI8 fs
  .ok ((cv, pi, pc, li, t1, t2), fs)

/-- `AVCDecoderConfigurationRecord.parse_tag_content` (tags.py lines
174-193): `reserved = (t1 >> 2) & 0x3F`, `RLELength = t1 & 0x3`,
`reserved2 = t2 >> 5`, `numSPS = t2 & 0x1F` (a 5-bit count), the SPS list,
an 8-bit `numPPS`, and the PPS list. -/
def avcParseContent (fs : FS) : Except PErr (AVCRec × FS) := do
  let (head, fs) ← avcParseHead fs
  let (cv, pi, pc, li, t1, t2) := head
  let (sps, fs) ← parseNALUList (t2 &&& 0x1F) fs
  let (npps, fs) ← getUI8 fs
  let (pps, fs) ← parseNALUList npps fs
  .ok (⟨cv, pi, pc, li, (t1 >>> 2) &&& 0x3F, t1 &&& 0x3, t2 >>> 5,
    t2 &&& 0x1F, sps, npps, pps⟩, fs)

/-- `AVCDecoderConfigurationRecord.write_tag_content` (tags.py lines
195-208).  Line 202 re-packs the SPS count from the live list length but
masks it with `0x3` (two bits), while the PPS count (line 206) is the full
8-bit live length. -/
def avcWriteContent (cfg : AVCRec) : List Nat :=
  makeUI8 cfg.configurationVersion ++ makeUI8 cfg.avcProfileIndication ++
  makeUI8 cfg.profileCompatibility ++ makeUI8 cfg.avcLevelIndication ++
  makeUI8 ((cfg.reserved <<< 2) ||| (cfg.RLELength &&& 0x3)) ++
  makeUI8 ((cfg.reserved2 <<< 5) ||| (cfg.sps.length &&& 0x3)) ++
  (cfg.sps.map (fun s => naluWriteContent 2 s.size s.data)).flatten ++
  makeUI8 cfg.pps.length ++
  (cfg.pps.map (fun p => naluWriteContent 2 p.size p.data)).flatten

/-! ### AudioTag (tags.py lines 89-153) -/

/-- The sound fields of a parsed `AudioTag` (tags.py lines 91-123). -/
structure AudioFields where
  sound_format : Nat
  sound_rate : Nat
  sound_size : Nat
  sound_type : Nat
  aac_packet_type : Option Nat
deriving DecidableEq, Repr

/-- tags.py lines 110-123: the AAC-only packet-type read and the two AAC
`ensure` checks; non-AAC formats leave `aac_packet_type` as `None` and
`read_bytes` at 1. -/
def audioAACBlock (strict : Bool) (fmt rate sty : Nat) (fs : FS) :
    Except PErr (Option Nat × Nat × FS) :=
  if fmt = SOUND_FORMAT_AAC then do
    let (apt, fs) ← getUI8 fs
    let _ ← ensureChk strict rate SOUND_RATE_44_KHZ
    let _ ← ensureChk strict sty SOUND_TYPE_STEREO
    .ok (some apt, 2, fs)
  else .ok (none, 1, fs)

/-- tags.py lines 127-138: the strict-mode table lookups.  The
`aac_packet_type_to_string` lookup is guarded by Python truthiness of
`aac_packet_type`, so `None` and `0` never raise. -/
def audioStrictChecks (strict : Bool) (fmt : Nat) (apt : Option Nat) :
    Except PErr Unit :=
  if strict then
    if fmt ∉ knownSoundFormats then .error .malformed
    else
      match apt with
      | some a =>
          if a ≠ 0 ∧ a ∉ knownAACPacketTypes then .error .malformed else .ok ()
      | none => .ok ()
  else .ok ()

/-- `AudioTag.parse_tag_content` (tags.py lines 99-140): unpack the sound
flags byte, run the AAC block, the strict checks, then seek past the rest
of the content (`size - read_bytes`, possibly negative). -/
def audioParseContent (strict : Bool) (size : Nat) (fs : FS) :
    Except PErr (AudioFields × FS) := do
  let (flags, fs) ← getUI8 fs
  let fmt := (flags &&& 0xF0) >>> 4
  let rate := (flags &&& 0xC) >>> 2
  let (apt, readBytes, fs2) ← audioAACBlock strict fmt rate (flags &&& 0x1) fs
  let _ ← audioStrictChecks strict fmt apt
  let fs3 ← seekCur fs2 ((size : Int) - (readBytes : Int))
  .ok (⟨fmt, rate, (flags &&& 0x2) >>> 1, flags &&& 0x1, apt⟩, fs3)

/-! ### VideoTag (tags.py lines 399-490) -/

/-- The fields of a parsed `VideoTag` (tags.py lines 401-457).
`h264_packet_type` and `composition_time` exist only for H.264 tags; a
configuration record only for non-NALU H.264 packet types. -/
structure VideoFields where
  frame_type : Nat
  codec_id : Nat
  h264_packet_type : Option Nat
  composition_time : Option Nat
  nalus : List NALURec
  configurationRecord : Option AVCRec

/-- The NALU-sequence loop of `VideoTag.parse_tag_content` (tags.py lines
448-454): `while bytesRead < self.data_size - 12`, accumulating only
`nal.size` — the declared payload length, not the 4-byte prefix — into
`bytesRead`.  The recursion is fuelled by the remaining byte count: a
successful iteration consumes at least five stream bytes, so fuel
`fs.rest.length + 1` cannot run out before the stream itself errors. -/
def parseNALULoop (fuel : Nat) (dataSize : Int) (bytesRead : Int) (fs : FS) :
    Except PErr (List NALURec × FS) :=
  match fuel with
  | 0 => .error .readError
  | f + 1 =>
      if bytesRead < dataSize - 12 then do
        let (nalu, fs) ← naluParseContent 4 fs
        let (rest, fs) ← parseNALULoop f dataSize (bytesRead + nalu.size) fs
        .ok (nalu :: rest, fs)
      else .ok ([], fs)

/-- The H.264 body of `VideoTag.parse_tag_content` (tags.py lines 431-457):
packet-type byte, 24-bit composition time, `data_size = size - 5`; packet
type 1 runs the NALU loop (or seeks past the payload when the container is
encrypted), any other packet type parses a configuration record. -/
def videoH264Body (encrypted : Bool) (size : Nat) (fs : FS) :
    Except PErr ((Nat × Nat × List NALURec × Option AVCRec) × FS) := do
  let (pt, fs) ← getUI8 fs
  let (ct, fs) ← getUI24 fs
  let dataSize : Int := (size : Int) - 5
  if pt = 1 then
    if encrypted then do
      let fs ← seekCur fs dataSize
      .ok ((pt, ct, [], none), fs)
    else do
      let (nalus, fs) ← parseNALULoop (fs.rest.length + 1) dataSize 0 fs
      .ok ((pt, ct, nalus, none), fs)
  else do
    let (cfg, fs) ← avcParseContent fs
    .ok ((pt, ct, [], some cfg), fs)

/-- tags.py lines 460-474: the strict-mode table lookups of
`VideoTag.parse_tag_content`; the `h264_packet_type_to_string` lookup is
guarded by Python truthiness, so `None` and `0` never raise. -/
def videoStrictChecks (strict : Bool) (ft cid : Nat) (pt : Option Nat) :
    Except PErr Unit :=
  if strict then
    if ft ∉ knownFrameTypes then .error .malformed
    else if cid ∉ knownCodecIDs then .error .malformed
    else
      match pt with
      | some p =>
          if p ≠ 0 ∧ p ∉ knownH264PacketTypes then .error .malformed else .ok ()
      | none => .ok ()
  else .ok ()

/-- `VideoTag.parse_tag_content` (tags.py lines 422-474).  Note that for
non-H.264 codecs the method reads only the flags byte and never seeks past
the remaining content. -/
def videoParseContent (strict encrypted : Bool) (size : Nat) (fs : FS) :
    Except PErr (VideoFields × FS) := do
  let (flags, fs) ← getUI8 fs
  let ft := (flags &&& 0xF0) >>> 4
  let cid := flags &&& 0xF
  if cid = CODEC_ID_H264 then do
    let (body, fs) ← videoH264Body encrypted size fs
    let (pt, ct, nalus, cfg) := body
    let _ ← videoStrictChecks strict ft cid (some pt)
    .ok (⟨ft, cid, some pt, some ct, nalus, cfg⟩, fs)
  else do
    let _ ← videoStrictChecks strict ft cid none
    .ok (⟨ft, cid, none, none, [], none⟩, fs)

/-- `VideoTag.write_tag_content` (tags.py lines 408-418).  Accessing an
H.264 attribute that was never assigned, or `make_ui8(None)`, raises
(modelled as `none`); packet type 1 writes the NALU list with 4-byte
prefixes, any other packet type writes the configuration record. -/
def videoWriteContent (f : VideoFields) : Option (List Nat) :=
  let head := makeUI8 ((f.frame_type <<< 4) ||| f.codec_id)
  if f.codec_id = CODEC_ID_H264 then
    match f.h264_packet_type, f.composition_time with
    | some pt, some ct =>
        if pt = 1 then
          some (head ++ makeUI8 pt ++ makeUI24 ct ++
            (f.nalus.map (fun n => naluWriteContent 4 n.size n.data)).flatten)
        else
          match f.configurationRecord with
          | some cfg =>
              some (head ++ makeUI8 pt ++ makeUI24 ct ++ avcWriteContent cfg)
          | none => none
    | _, _ => none
  else some head

/-! ### Tag dispatch, parse and write (tags.py lines 35-87, 493-531,
601-620) -/

/-- The closed variant set of the tag model. -/
inductive TagClass where
  | audio
  | video
  | script
  | scriptAMF3
deriving DecidableEq, Repr

/-- `tag_to_class` (tags.py lines 526-531). -/
def tagToClass (t : Nat) : Option TagClass :=
  if t = TAG_TYPE_AUDIO then some .audio
  else if t = TAG_TYPE_VIDEO then some .video
  else if t = TAG_TYPE_SCRIPT_AMF3 then some .scriptAMF3
  else if t = TAG_TYPE_SCRIPT then some .script
  else none

/-- The variant content of a tag, for parsed tags and in-memory tags
alike: `AudioTag` sound fields, `VideoTag` fields, a `ScriptTag` byte blob
(tags.py lines 500-506), or an opaque `ScriptAMF3Tag`. -/
inductive TagPayload where
  | audio (f : AudioFields)
  | video (f : VideoFields)
  | script (data : List Nat)
  | scriptAMF3

/-- A tag after `Tag.parse`. -/
structure ParsedTag where
  type : Nat
  offset : Nat
  size : Nat
  timestamp : Int
  stream_id : Nat
  previous_tag_size : Nat
  payload : TagPayload

/-- The variant dispatch of `parse_tag_content`: `AudioTag` (lines
99-140), `VideoTag` (lines 422-474), `ScriptTag` reads its blob (lines
500-502), `ScriptAMF3Tag` inherits the base seek-past (lines 85-87). -/
def parseTagContent (strict encrypted : Bool) (cls : TagClass) (size : Nat)
    (fs : FS) : Except PErr (TagPayload × FS) :=
  match cls with
  | .audio => do
      let (a, fs) ← audioParseContent strict size fs
      .ok (.audio a, fs)
  | .video => do
      let (v, fs) ← videoParseContent strict encrypted size fs
      .ok (.video v, fs)
  | .script =>
      let (d, fs) := fs.readUpTo size
      .ok (.script d, fs)
  | .scriptAMF3 => .ok (.scriptAMF3, fs.advance size)

/-- `Tag.parse` (tags.py lines 55-83), entered with the stream positioned
just after the type byte (`self.offset = f.tell() - 1`).  The stream id is
read into a local and only `ensure`-checked — the object's `stream_id`
attribute keeps the constructor's 0 (line 42) — while
`previous_tag_size` stores the observed trailing value whatever the
`ensure` outcome. -/
def tagParse (strict encrypted : Bool) (tagType : Nat) (cls : TagClass)
    (fs : FS) : Except PErr (ParsedTag × FS) := do
  let offset := fs.pos - 1
  let (size, fs) ← getUI24 fs
  let (ts, fs) ← getSI32Extended fs
  let (sid, fs) ← getUI24 fs
  let _ ← ensureChk strict sid 0
  let (payload, fs) ← parseTagContent strict encrypted cls size fs
  let (pts, fs) ← getUI32 fs
  let _ ← ensureChk strict pts (size + 11)
  .ok (⟨tagType, offset, size, ts, 0, pts, payload⟩, fs)

/-- `FLV.get_next_tag` (tags.py lines 601-614): read the type byte — end
of stream here is the normal `EndOfTags` termination, returned as `none` —
then dispatch through `FLV.tag_type_to_class` (lines 616-620), where an
unrecognized type raises `MalformedFLV` with no `strict_parser()`
involvement, and run `Tag.parse`. -/
def getNextTag (strict encrypted : Bool) (fs : FS) :
    Except PErr (Option (ParsedTag × FS)) :=
  match getUI8 fs with
  | .error _ => .ok none
  | .ok (t, fs) =>
      match tagToClass t with
      | none => .error .malformed
      | some cls =>
          match tagParse strict encrypted t cls fs with
          | .error e => .error e
          | .ok (tag, fs) => .ok (some (tag, fs))

/-- The container-level header fields (tags.py lines 536-587). -/
structure FLVHeader where
  version : Nat
  has_audio : Bool
  has_video : Bool
deriving DecidableEq, Repr

/-- `FLV.parse_header` (tags.py lines 544-587): seek to 0, check the
3-byte signature unconditionally (short file and wrong signature both raise
`MalformedFLV` irrespective of mode), read version and flags, `ensure` both
reserved bit groups, derive the audio/video presence bits, seek to the
header size, read `PreviousTagSize0` and `ensure` it is zero. -/
def parseHeader (strict : Bool) (fs0 : FS) : Except PErr (FLVHeader × FS) :=
  let fs : FS := ⟨fs0.data, 0⟩
  let (sig, fs) := fs.readUpTo 3
  if sig.length < 3 then .error .malformed
  else if sig ≠ [70, 76, 86] then .error .malformed
  else do
    let (version, fs) ← getUI8 fs
    let (flags, fs) ← getUI8 fs
    let _ ← ensureChk strict (flags &&& 0xF8) 0
    let _ ← ensureChk strict (flags &&& 0x2) 0
    let (headerSize, fs) ← getUI32 fs
    let fs : FS := ⟨fs.data, headerSize⟩
    let (tag0, fs) ← getUI32 fs
    let _ ← ensureChk strict tag0 0
    .ok (⟨version, flags &&& 0x4 ≠ 0, flags &&& 0x1 ≠ 0⟩, fs)

/-- An in-memory tag to be serialized: the writable attributes of a `Tag`
constructed from field values (no stream offset). -/
structure InMemTag where
  type : Nat
  size : Nat
  timestamp : Int
  stream_id : Nat
  previous_tag_size : Nat
  payload : TagPayload

/-- `Tag.write` (tags.py lines 46-52): emit type, size, extended
timestamp, stream id, the variant content, then the trailing size.
`AudioTag` and `ScriptAMF3Tag` define no `write_tag_content`, so the
`self.write_tag_content(outfile)` call on line 51 raises `AttributeError`
for them — no byte string is produced (modelled as `none`). -/
def writeTag (t : InMemTag) : Option (List Nat) :=
  match (match t.payload with
         | .audio _ => none
         | .video f => videoWriteContent f
         | .script d => some d
         | .scriptAMF3 => none) with
  | none => none
  | some content =>
      some (makeUI8 t.type ++ makeUI24 t.size ++ makeSI32Extended t.timestamp ++
        makeUI24 t.stream_id ++ content ++ makeUI32 t.previous_tag_size)

/-! ### Read/write agreement for the primitives -/

theorem getBytes_append (fs : FS) (a r : List Nat) (h : fs.rest = a ++ r) :
    getBytes fs a.length = .ok (a, fs.advance a.length) := by
  simp [getBytes, h, List.take_left]

theorem rest_after (fs : FS) (a r : List Nat) (n : Nat) (h : fs.rest = a ++ r)
    (hl : a.length = n) : (fs.advance n).rest = r := by
  rw [FS.rest_advance, h, ← hl, List.drop_left]

theorem readUpTo_exact (fs : FS) (a r : List Nat) (h : fs.rest = a ++ r) :
    fs.readUpTo a.length = (a, fs.advance a.length) := by
  simp [FS.readUpTo, h, List.take_left]

theorem getUI8_cons (fs : FS) (b : Nat) (r : List Nat) (h : fs.rest = b :: r) :
    getUI8 fs = .ok (b, fs.advance 1) := by
  have hb : getBytes fs 1 = .ok ([b], fs.advance 1) :=
    getBytes_append fs [b] r h
  simp only [getUI8, hb, bind, Except.bind, beVal, List.foldl]
  simp

theorem makeUI24_length (n : Nat) : (makeUI24 n).length = 3 := rfl

theorem getUI24_make (fs : FS) (n : Nat) (r : List Nat) (hn : n < 16777216)
    (h : fs.rest = makeUI24 n ++ r) :
    getUI24 fs = .ok (n, fs.advance 3) := by
  have hb : getBytes fs 3 = .ok (makeUI24 n, fs.advance 3) :=
    makeUI24_length n ▸ getBytes_append fs (makeUI24 n) r h
  simp only [getUI24, hb, bind, Except.bind, beVal, makeUI24, List.foldl]
  simp only [Except.ok.injEq, Prod.mk.injEq, and_true]
  omega

theorem makeUI32_length (n : Nat) : (makeUI32 n).length = 4 := rfl

theorem getUI32_make (fs : FS) (n : Nat) (r : List Nat) (hn : n < 4294967296)
    (h : fs.rest = makeUI32 n ++ r) :
    getUI32 fs = .ok (n, fs.advance 4) := by
  have hb : getBytes fs 4 = .ok (makeUI32 n, fs.advance 4) :=
    makeUI32_length n ▸ getBytes_append fs (makeUI32 n) r h
  simp only [getUI32, hb, bind, Except.bind, beVal, makeUI32, List.foldl]
  simp only [Except.ok.injEq, Prod.mk.injEq, and_true]
  omega

theorem makeSI32Extended_length (t : Int) : (makeSI32Extended t).length = 4 := rfl

theorem getSI32Extended_make (fs : FS) (t : Int) (r : List Nat)
    (h1 : -2147483648 ≤ t) (h2 : t < 2147483648)
    (h : fs.rest = makeSI32Extended t ++ r) :
    getSI32Extended fs = .ok (t, fs.advance 4) := by
  have hu : (0 : Int) ≤ t % 4294967296 := Int.emod_nonneg t (by norm_num)
  have hu2 : t % 4294967296 < 4294967296 := Int.emod_lt_of_pos t (by norm_num)
  set u : Nat := (t % 4294967296).toNat with hudef
  have hu3 : u < 4294967296 := by omega
  have hlow : u % 16777216 < 16777216 := Nat.mod_lt _ (by norm_num)
  have hsplit : fs.rest = makeUI24 (u % 16777216) ++
      (makeUI8 (u / 16777216) ++ r) := by
    rw [h]
    simp [makeSI32Extended, ← hudef]
  have h24 : getUI24 fs = .ok (u % 16777216, fs.advance 3) :=
    getUI24_make fs (u % 16777216) _ hlow hsplit
  have hrest3 : (fs.advance 3).rest = makeUI8 (u / 16777216) ++ r :=
    rest_after fs (makeUI24 (u % 16777216)) _ 3 hsplit (makeUI24_length _)
  have hhigh : (fs.advance 3).rest = (u / 16777216 % 256) :: r := by
    rw [hrest3]; rfl
  have h8 : getUI8 (fs.advance 3) = .ok (u / 16777216 % 256, (fs.advance 3).advance 1) :=
    getUI8_cons (fs.advance 3) _ r hhigh
  have hadv : (fs.advance 3).advance 1 = fs.advance 4 := by
    simp [FS.advance]
  simp only [getSI32Extended, h24, bind, Except.bind, h8, hadv]
  simp only [Except.ok.injEq, Prod.mk.injEq, and_true]
  have hmod : t % 4294967296 = (u : Int) := by omega
  have hretc : u / 16777216 % 256 * 16777216 + u % 16777216 = u := by omega
  rw [hretc]
  split
  · omega
  · omega

theorem ensureChk_lenient (v e : Nat) : ensureChk false v e = .ok () := by
  unfold ensureChk
  split
  · rfl
  · rfl

/-! ### Claim C8: unknown tag type bytes -/

/-- C8 (confirmed).  For every tag type byte outside
`{audio=8, video=9, scriptAMF3=15, script=18}`, `tag_to_class` has no
entry, and `get_next_tag` raises `MalformedFLV` on it in strict and
lenient mode alike (the dispatch in `FLV.tag_type_to_class` never consults
`strict_parser()`). -/
theorem C8_unknown_tag_type (strict encrypted : Bool) (t : Nat)
    (rest : List Nat)
    (h : t ≠ TAG_TYPE_AUDIO ∧ t ≠ TAG_TYPE_VIDEO ∧
      t ≠ TAG_TYPE_SCRIPT_AMF3 ∧ t ≠ TAG_TYPE_SCRIPT) :
    tagToClass t = none ∧
    getNextTag strict encrypted ⟨t :: rest, 0⟩ = .error .malformed := by
  obtain ⟨h1, h2, h3, h4⟩ := h
  have hcls : tagToClass t = none := by
    simp [tagToClass, h1, h2, h3, h4]
  refine ⟨hcls, ?_⟩
  have hread : getUI8 ⟨t :: rest, 0⟩ = .ok (t, FS.advance ⟨t :: rest, 0⟩ 1) :=
    getUI8_cons ⟨t :: rest, 0⟩ t rest (by simp [FS.rest])
  simp only [getNextTag, hread, hcls]

/-- Witness for C8 at the concrete unrecognized type byte 16. -/
theorem C8_unknown_tag_type_witness :
    tagToClass 16 = none ∧
    getNextTag false false ⟨[16, 0, 0], 0⟩ = .error .malformed :=
  C8_unknown_tag_type false false 16 [0, 0] (by decide)

/-! ### Claim C1: the VideoTag NALU loop -/

/-- A complete H.264 NALU video tag body (after the type byte): size 13,
timestamp 0, stream id 0, content `[flags 0x17, packet type 1, 24-bit
composition time 0, one NALU of declared size 4 (prefix 00 00 00 04,
payload 67 00 00 00)]`, trailing `PreviousTagSize` 24 = 13 + 11. -/
def c1TagBytes : List Nat :=
  makeUI24 13 ++ makeSI32Extended 0 ++ makeUI24 0 ++
  [0x17, 0x01, 0x00, 0x00, 0x00,
   0x00, 0x00, 0x00, 0x04, 0x67, 0x00, 0x00, 0x00] ++
  makeUI32 24

/-- C1 (code bug).  On a well-formed one-NALU tag the loop guard
`bytesRead < data_size - 12` (tags.py line 449) is false immediately
(`0 < 8 - 12` fails), so no NALU is parsed and the stream is left at the
start of the NALU region: `Tag.parse` then reads the NALU length prefix
bytes `00 00 00 04` as `PreviousTagSize` (4 instead of the trailing 24)
and finishes at position 19 instead of 27.  The claim's reading — consume
NALUs until the 8-byte H.264 payload is exhausted, leaving the stream at
the trailing size field — would give one parsed NALU and
`previous_tag_size = 24`. -/
theorem C1_nalu_loop_bug :
    (tagParse false false TAG_TYPE_VIDEO TagClass.video ⟨c1TagBytes, 0⟩).map
      (fun p => (p.1.size, p.1.previous_tag_size, p.2.pos,
        match p.1.payload with
        | .video v => v.nalus.length
        | _ => 99)) = .ok (13, 4, 19, 0) ∧
    (4 : Nat) ≠ 13 + 11 ∧ (19 : Nat) ≠ c1TagBytes.length ∧
    c1TagBytes.length = 27 := by
  exact ⟨rfl, by decide, by decide, rfl⟩

/-! ### Claim C4: the configuration-record SPS count -/

/-- A one-byte SPS/PPS NALU record (unit type 7) as stored in a
configuration record. -/
def c4Nalu : NALURec := ⟨0, 1, [0x67], 0, 3, 7, 7, none, none, none, none⟩

/-- A configuration record whose live SPS list (five entries) and PPS list
(two entries) disagree with the stale `numSPS`/`numPPS` count fields. -/
def c4Rec : AVCRec :=
  ⟨1, 100, 0, 40, 63, 3, 7, 2,
   [c4Nalu, c4Nalu, c4Nalu, c4Nalu, c4Nalu], 9, [c4Nalu, c4Nalu]⟩

/-- C4 (code bug).  `write_tag_content` does take both counts from the
live list lengths (the SPS count byte is `7 <<< 5 ||| (5 &&& 0x3) = 225`,
ignoring the stale `numSPS = 2`, and the PPS count byte is the live 2, not
the stale 9) — but the SPS length is masked with `0x3` (two bits, tags.py
line 202) although `parse_tag_content` reads a 5-bit count (line 184), so
re-parsing the written record recovers only `5 mod 4 = 1` of the five SPS
entries and then misreads the remaining bytes. -/
theorem C4_sps_count_bug :
    c4Rec.sps.length = 5 ∧ c4Rec.numSPS = 2 ∧
    c4Rec.pps.length = 2 ∧ c4Rec.numPPS = 9 ∧
    (avcWriteContent c4Rec).take 6 = [1, 100, 0, 40, 255, 225] ∧
    (avcWriteContent c4Rec).drop 21 = [2, 0, 1, 0x67, 0, 1, 0x67] ∧
    (avcParseContent ⟨avcWriteContent c4Rec, 0⟩).map
      (fun p => (p.1.numSPS, p.1.sps.length, p.1.numPPS, p.1.pps.length)) =
      .ok (1, 1, 0, 0) ∧
    (1 : Nat) ≠ 5 := by
  exact ⟨rfl, rfl, rfl, rfl, rfl, rfl, rfl, by decide⟩

/-! ### Claim C7: strict and lenient validation -/

/-- A conforming script tag body except for stream id 5: size 1, timestamp
0, content `[0xAB]`, trailing size 12 = 1 + 11. -/
def c7Bytes : List Nat :=
  makeUI24 1 ++ makeSI32Extended 0 ++ makeUI24 5 ++ [0xAB] ++ makeUI32 12

/-- C7 counterexample.  In lenient mode the parse of a tag whose stream id
bytes hold 5 succeeds, but the parsed tag's `stream_id` attribute is the
constructor's 0, not the observed 5: `Tag.parse` reads the stream id into
a local variable (tags.py line 71) and never stores it, so the claim that
"the observed non-conforming value is retained in the parsed result" fails
for the stream id invariant. -/
theorem C7_counterexample :
    (c7Bytes.drop 7).take 3 = [0, 0, 5] ∧
    (tagParse false false TAG_TYPE_SCRIPT TagClass.script ⟨c7Bytes, 0⟩).map
      (fun p => (p.1.stream_id, p.1.previous_tag_size)) = .ok (0, 12) ∧
    (0 : Nat) ≠ 5 := by
  exact ⟨rfl, rfl, by decide⟩

/-! ### Parametric parse lemmas for script tags and the header -/

theorem readUpTo_of_rest (fs : FS) (a r : List Nat) (n : Nat)
    (h : fs.rest = a ++ r) (hn : a.length = n) :
    fs.readUpTo n = (a, fs.advance n) := by
  subst hn
  exact readUpTo_exact fs a r h

/-- A script tag body laid out after the type byte: size, extended
timestamp, stream id, content blob, trailing size. -/
def scriptTagBody (d : List Nat) (ts : Int) (sid pts : Nat) : List Nat :=
  makeUI24 d.length ++ makeSI32Extended ts ++ makeUI24 sid ++ d ++ makeUI32 pts

/-- `Tag.parse` on a script tag body: the reads always succeed; the two
`ensure` checks (stream id zero, trailing size `size + 11`) alone decide
between failure and success, the parsed tag keeps `stream_id = 0` and
stores the observed `previous_tag_size`. -/
theorem tagParse_scriptBody (strict : Bool) (tagType : Nat) (pre d : List Nat)
    (ts : Int) (sid pts : Nat)
    (hd : d.length < 16777216) (hts1 : -2147483648 ≤ ts)
    (hts2 : ts < 2147483648) (hsid : sid < 16777216)
    (hpts : pts < 4294967296) :
    tagParse strict false tagType TagClass.script
        ⟨pre ++ scriptTagBody d ts sid pts, pre.length⟩ =
      (do
        let _ ← ensureChk strict sid 0
        let _ ← ensureChk strict pts (d.length + 11)
        Except.ok
          ((⟨tagType, pre.length - 1, d.length, ts, 0, pts,
              .script d⟩ : ParsedTag),
            (⟨pre ++ scriptTagBody d ts sid pts,
              pre.length + (d.length + 14)⟩ : FS))) := by
  have h0 : (⟨pre ++ scriptTagBody d ts sid pts, pre.length⟩ : FS).rest =
      makeUI24 d.length ++ (makeSI32Extended ts ++ (makeUI24 sid ++
        (d ++ makeUI32 pts))) := by
    simp [FS.rest, scriptTagBody, List.drop_left]
  have e1 := getUI24_make _ d.length _ hd h0
  have r1 := rest_after _ _ _ 3 h0 (makeUI24_length _)
  have e2 := getSI32Extended_make _ ts _ hts1 hts2 r1
  have r2 := rest_after _ _ _ 4 r1 (makeSI32Extended_length _)
  have e3 := getUI24_make _ sid _ hsid r2
  have r3 := rest_after _ _ _ 3 r2 (makeUI24_length _)
  have e4 := readUpTo_of_rest _ d _ d.length r3 rfl
  have r4 : ((((((⟨pre ++ scriptTagBody d ts sid pts, pre.length⟩ :
      FS).advance 3).advance 4).advance 3).advance d.length)).rest =
      makeUI32 pts ++ [] := by
    have := rest_after _ _ _ d.length r3 rfl
    simpa using this
  have e5 := getUI32_make _ pts _ hpts r4
  simp only [tagParse, parseTagContent, e1, e2, e3, e4, e5, bind, Except.bind]
  cases hE1 : ensureChk strict sid 0 with
  | error e => rfl
  | ok u =>
      cases u
      cases hE2 : ensureChk strict pts (d.length + 11) with
      | error e => rfl
      | ok u =>
          cases u
          simp only [Except.ok.injEq, Prod.mk.injEq, FS.mk.injEq,
            FS.advance, ParsedTag.mk.injEq, true_and, and_true]
          omega

theorem ensureChk_strict_ne (v e : Nat) (h : v ≠ e) :
    ensureChk true v e = .error .malformed := by
  simp [ensureChk, h]

theorem ensureChk_eq (strict : Bool) (v : Nat) :
    ensureChk strict v v = .ok () := by
  simp [ensureChk]

/-- `tagParse_scriptBody` in the default lenient mode: both `ensure`
checks pass silently and the parse succeeds. -/
theorem tagParse_scriptBody_lenient (tagType : Nat) (pre d : List Nat)
    (ts : Int) (sid pts : Nat)
    (hd : d.length < 16777216) (hts1 : -2147483648 ≤ ts)
    (hts2 : ts < 2147483648) (hsid : sid < 16777216)
    (hpts : pts < 4294967296) :
    tagParse false false tagType TagClass.script
        ⟨pre ++ scriptTagBody d ts sid pts, pre.length⟩ =
      Except.ok
        ((⟨tagType, pre.length - 1, d.length, ts, 0, pts,
            .script d⟩ : ParsedTag),
          (⟨pre ++ scriptTagBody d ts sid pts,
            pre.length + (d.length + 14)⟩ : FS)) := by
  rw [tagParse_scriptBody false tagType pre d ts sid pts hd hts1 hts2 hsid hpts]
  simp [ensureChk_lenient, bind, Except.bind]

/-- An FLV file header: signature, version byte, flags byte, header size 9,
`PreviousTagSize0`. -/
def flvHeaderBytes (v flags tag0 : Nat) : List Nat :=
  [70, 76, 86] ++ makeUI8 v ++ makeUI8 flags ++ makeUI32 9 ++ makeUI32 tag0

/-- `FLV.parse_header` on a well-formed-length header: the three `ensure`
checks (two reserved bit groups, `PreviousTagSize0`) alone decide between
failure and success; the audio/video presence bits come from the observed
flags byte. -/
theorem parseHeader_bytes (strict : Bool) (v flags tag0 : Nat)
    (extra : List Nat) (hv : v < 256) (hf : flags < 256)
    (ht0 : tag0 < 4294967296) :
    parseHeader strict ⟨flvHeaderBytes v flags tag0 ++ extra, 0⟩ =
      (do
        let _ ← ensureChk strict (flags &&& 0xF8) 0
        let _ ← ensureChk strict (flags &&& 0x2) 0
        let _ ← ensureChk strict tag0 0
        Except.ok ((⟨v, flags &&& 0x4 ≠ 0, flags &&& 0x1 ≠ 0⟩ : FLVHeader),
          (⟨flvHeaderBytes v flags tag0 ++ extra, 13⟩ : FS))) := by
  have h0 : (⟨flvHeaderBytes v flags tag0 ++ extra, 0⟩ : FS).rest =
      [70, 76, 86] ++ (makeUI8 v ++ (makeUI8 flags ++ (makeUI32 9 ++
        (makeUI32 tag0 ++ extra)))) := by
    simp [FS.rest, flvHeaderBytes]
  have e0 := readUpTo_of_rest _ [70, 76, 86] _ 3 h0 rfl
  have r0 := rest_after _ _ _ 3 h0 rfl
  have hv8 : makeUI8 v ++ (makeUI8 flags ++ (makeUI32 9 ++
      (makeUI32 tag0 ++ extra))) = v :: (makeUI8 flags ++ (makeUI32 9 ++
      (makeUI32 tag0 ++ extra))) := by
    simp [makeUI8, Nat.mod_eq_of_lt hv]
  have e1 := getUI8_cons _ v _ (by rw [r0, hv8])
  have r1 := rest_after _ (makeUI8 v) _ 1 (by rw [r0]) rfl
  have hf8 : makeUI8 flags ++ (makeUI32 9 ++ (makeUI32 tag0 ++ extra)) =
      flags :: (makeUI32 9 ++ (makeUI32 tag0 ++ extra)) := by
    simp [makeUI8, Nat.mod_eq_of_lt hf]
  have e2 := getUI8_cons _ flags _ (by rw [r1, hf8])
  have r2 := rest_after _ (makeUI8 flags) _ 1 (by rw [r1]) rfl
  have e3 := getUI32_make _ 9 _ (by norm_num) r2
  have h9 : (⟨flvHeaderBytes v flags tag0 ++ extra, 9⟩ : FS).rest =
      makeUI32 tag0 ++ extra := by
    simp [FS.rest, flvHeaderBytes, makeUI8, makeUI32]
  have e4 := getUI32_make _ tag0 _ ht0 h9
  have hdata : ∀ (fs : FS) (n : Nat), (fs.advance n).data = fs.data :=
    fun _ _ => rfl
  simp only [parseHeader, e0, e1, e2, e3, hdata, e4, bind, Except.bind]
  cases hE1 : ensureChk strict (flags &&& 0xF8) 0 with
  | error e => rfl
  | ok u =>
      cases u
      cases hE2 : ensureChk strict (flags &&& 0x2) 0 with
      | error e => rfl
      | ok u =>
          cases u
          cases hE3 : ensureChk strict tag0 0 with
          | error e => rfl
          | ok u => cases u; rfl

/-- C3 (corrected).  A `ScriptTag` with valid field values round-trips:
`write` emits `content size + 15` bytes (the 11-byte header, the content,
and the 4-byte trailing `PreviousTagSize` — not `content size + 11` as
claimed) and re-parsing them recovers every field.  An `AudioTag` never
round-trips because the class defines no `write_tag_content`, so
`Tag.write` raises `AttributeError` and produces nothing. -/
theorem C3_roundtrip :
    (∀ (t : InMemTag) (d : List Nat),
        t.payload = .script d → t.type = TAG_TYPE_SCRIPT →
        t.size = d.length → t.size < 16777216 →
        -2147483648 ≤ t.timestamp → t.timestamp < 2147483648 →
        t.stream_id = 0 → t.previous_tag_size < 4294967296 →
        ∃ bytes tag fs,
          writeTag t = some bytes ∧
          bytes.length = t.size + 15 ∧
          getNextTag false false ⟨bytes, 0⟩ = .ok (some (tag, fs)) ∧
          tag.type = t.type ∧ tag.size = t.size ∧
          tag.timestamp = t.timestamp ∧ tag.stream_id = t.stream_id ∧
          tag.previous_tag_size = t.previous_tag_size ∧
          tag.payload = t.payload) ∧
    (∀ (t : InMemTag) (a : AudioFields), t.payload = .audio a →
        writeTag t = none) := by
  constructor
  · intro t d hp ht hs hsz hts1 hts2 hsid hpts
    have hd : d.length < 16777216 := hs ▸ hsz
    have hbytes : writeTag t =
        some (18 :: scriptTagBody d t.timestamp t.stream_id t.previous_tag_size) := by
      simp [writeTag, hp, ht, TAG_TYPE_SCRIPT, makeUI8, scriptTagBody, hs,
        List.append_assoc]
    rw [hsid] at hbytes
    refine ⟨18 :: scriptTagBody d t.timestamp 0 t.previous_tag_size,
      ⟨18, 0, d.length, t.timestamp, 0, t.previous_tag_size, .script d⟩,
      ⟨18 :: scriptTagBody d t.timestamp 0 t.previous_tag_size,
        1 + (d.length + 14)⟩,
      hbytes, ?_, ?_, ht.symm, hs.symm, rfl, hsid.symm, rfl, hp.symm⟩
    · simp [scriptTagBody, makeUI24, makeUI32, makeSI32Extended, makeUI8]
      omega
    · have hb : getUI8 (⟨18 :: scriptTagBody d t.timestamp 0
          t.previous_tag_size, 0⟩ : FS) =
          .ok (18, FS.advance ⟨18 :: scriptTagBody d t.timestamp 0
            t.previous_tag_size, 0⟩ 1) :=
        getUI8_cons _ 18 (scriptTagBody d t.timestamp 0 t.previous_tag_size)
          (by simp [FS.rest])
      have hcls : tagToClass 18 = some TagClass.script := by
        norm_num [tagToClass, TAG_TYPE_AUDIO, TAG_TYPE_VIDEO,
          TAG_TYPE_SCRIPT_AMF3, TAG_TYPE_SCRIPT]
      have hpar : tagParse false false 18 TagClass.script
          (FS.advance ⟨18 :: scriptTagBody d t.timestamp 0
            t.previous_tag_size, 0⟩ 1) =
          Except.ok
            ((⟨18, 0, d.length, t.timestamp, 0, t.previous_tag_size,
                .script d⟩ : ParsedTag),
              (⟨18 :: scriptTagBody d t.timestamp 0 t.previous_tag_size,
                1 + (d.length + 14)⟩ : FS)) := by
        have h2 := tagParse_scriptBody_lenient 18 [18] d t.timestamp 0
          t.previous_tag_size hd hts1 hts2 (by norm_num) hpts
        simpa [FS.advance] using h2
      simp only [getNextTag, hb, hcls, hpar]
  · intro t a hp
    simp [writeTag, hp]

/-- Witness for C3: the concrete script tag
`⟨type 18, size 3, timestamp 0, stream id 0, trailing size 14,
content [1, 2, 3]⟩` round-trips, and the concrete AAC audio tag write
produces nothing. -/
theorem C3_roundtrip_witness :
    (∃ bytes tag fs,
      writeTag ⟨18, 3, 0, 0, 14, .script [1, 2, 3]⟩ = some bytes ∧
      bytes.length = (⟨18, 3, 0, 0, 14, .script [1, 2, 3]⟩ : InMemTag).size + 15 ∧
      getNextTag false false ⟨bytes, 0⟩ = .ok (some (tag, fs)) ∧
      tag.type = (⟨18, 3, 0, 0, 14, .script [1, 2, 3]⟩ : InMemTag).type ∧
      tag.size = (⟨18, 3, 0, 0, 14, .script [1, 2, 3]⟩ : InMemTag).size ∧
      tag.timestamp = (⟨18, 3, 0, 0, 14, .script [1, 2, 3]⟩ : InMemTag).timestamp ∧
      tag.stream_id = (⟨18, 3, 0, 0, 14, .script [1, 2, 3]⟩ : InMemTag).stream_id ∧
      tag.previous_tag_size =
        (⟨18, 3, 0, 0, 14, .script [1, 2, 3]⟩ : InMemTag).previous_tag_size ∧
      tag.payload = (⟨18, 3, 0, 0, 14, .script [1, 2, 3]⟩ : InMemTag).payload) ∧
    writeTag ⟨8, 2, 0, 0, 13, .audio ⟨10, 3, 1, 1, some 1⟩⟩ = none := by
  constructor
  · exact C3_roundtrip.1 ⟨18, 3, 0, 0, 14, .script [1, 2, 3]⟩ [1, 2, 3]
      rfl rfl rfl (by norm_num) (by norm_num) (by norm_num) rfl (by norm_num)
  · exact C3_roundtrip.2 ⟨8, 2, 0, 0, 13, .audio ⟨10, 3, 1, 1, some 1⟩⟩
      ⟨10, 3, 1, 1, some 1⟩ rfl

/-- The in-memory AAC audio tag of the C3 counterexample. -/
def c3AudioTag : InMemTag := ⟨8, 2, 0, 0, 13, .audio ⟨10, 3, 1, 1, some 1⟩⟩

/-- C3 counterexample: `Tag.write` on an `AudioTag` produces no bytes at
all (`AudioTag` has no `write_tag_content`, so line 51 of tags.py raises
`AttributeError`), hence no serialization of length `content size + 11` —
or any length — exists, refuting the round-trip claim for the Audio
variant. -/
theorem C3_counterexample :
    writeTag c3AudioTag = none ∧
    ¬ ∃ bytes, writeTag c3AudioTag = some bytes ∧
        bytes.length = c3AudioTag.size + 11 := by
  refine ⟨rfl, ?_⟩
  rintro ⟨bytes, hb, -⟩
  rw [show writeTag c3AudioTag = none from rfl] at hb
  exact Option.noConfusion hb

/-- C7 (corrected).  Each validated invariant aborts a strict parse with
`MalformedFLV`; in lenient mode none of them ever fails the parse.  The
observed trailing `PreviousTagSize` is retained in the parsed tag, but the
stream id is only checked — the parsed tag's `stream_id` stays 0 — and the
reserved flag bits and `PreviousTagSize0` are checked without being stored
(the header result retains only the observed audio/video presence bits). -/
theorem C7_strict_lenient_validation :
    (∀ (d : List Nat) (ts : Int) (sid pts : Nat),
        d.length < 16777216 → -2147483648 ≤ ts → ts < 2147483648 →
        sid < 16777216 → sid ≠ 0 → pts < 4294967296 →
        tagParse true false TAG_TYPE_SCRIPT TagClass.script
          ⟨scriptTagBody d ts sid pts, 0⟩ = .error .malformed) ∧
    (∀ (d : List Nat) (ts : Int) (pts : Nat),
        d.length < 16777216 → -2147483648 ≤ ts → ts < 2147483648 →
        pts < 4294967296 → pts ≠ d.length + 11 →
        tagParse true false TAG_TYPE_SCRIPT TagClass.script
          ⟨scriptTagBody d ts 0 pts, 0⟩ = .error .malformed) ∧
    (∀ (d : List Nat) (ts : Int) (sid pts : Nat),
        d.length < 16777216 → -2147483648 ≤ ts → ts < 2147483648 →
        sid < 16777216 → pts < 4294967296 →
        ∃ tag fs,
          tagParse false false TAG_TYPE_SCRIPT TagClass.script
            ⟨scriptTagBody d ts sid pts, 0⟩ = .ok (tag, fs) ∧
          tag.previous_tag_size = pts ∧ tag.stream_id = 0 ∧
          tag.size = d.length ∧ tag.timestamp = ts) ∧
    (∀ (v flags tag0 : Nat) (extra : List Nat), v < 256 → flags < 256 →
        tag0 < 4294967296 → flags &&& 0xF8 ≠ 0 →
        parseHeader true ⟨flvHeaderBytes v flags tag0 ++ extra, 0⟩ =
          .error .malformed) ∧
    (∀ (v flags tag0 : Nat) (extra : List Nat), v < 256 → flags < 256 →
        tag0 < 4294967296 → flags &&& 0xF8 = 0 → flags &&& 0x2 ≠ 0 →
        parseHeader true ⟨flvHeaderBytes v flags tag0 ++ extra, 0⟩ =
          .error .malformed) ∧
    (∀ (v flags tag0 : Nat) (extra : List Nat), v < 256 → flags < 256 →
        tag0 < 4294967296 → flags &&& 0xF8 = 0 → flags &&& 0x2 = 0 →
        tag0 ≠ 0 →
        parseHeader true ⟨flvHeaderBytes v flags tag0 ++ extra, 0⟩ =
          .error .malformed) ∧
    (∀ (v flags tag0 : Nat) (extra : List Nat), v < 256 → flags < 256 →
        tag0 < 4294967296 →
        parseHeader false ⟨flvHeaderBytes v flags tag0 ++ extra, 0⟩ =
          .ok (⟨v, flags &&& 0x4 ≠ 0, flags &&& 0x1 ≠ 0⟩,
            ⟨flvHeaderBytes v flags tag0 ++ extra, 13⟩)) := by
  refine ⟨?_, ?_, ?_, ?_, ?_, ?_, ?_⟩
  · intro d ts sid pts hd h1 h2 h3 hne h4
    have := tagParse_scriptBody true TAG_TYPE_SCRIPT [] d ts sid pts hd h1 h2 h3 h4
    simp only [List.nil_append, List.length_nil] at this
    rw [this, ensureChk_strict_ne sid 0 hne]
    rfl
  · intro d ts pts hd h1 h2 h3 hne
    have := tagParse_scriptBody true TAG_TYPE_SCRIPT [] d ts 0 pts hd h1 h2
      (by norm_num) h3
    simp only [List.nil_append, List.length_nil] at this
    rw [this]
    simp [ensureChk, hne, bind, Except.bind]
  · intro d ts sid pts hd h1 h2 h3 h4
    have := tagParse_scriptBody_lenient TAG_TYPE_SCRIPT [] d ts sid pts hd h1 h2 h3 h4
    simp only [List.nil_append, List.length_nil] at this
    exact ⟨_, _, this, rfl, rfl, rfl, rfl⟩
  · intro v flags tag0 extra hv hf ht0 hne
    rw [parseHeader_bytes true v flags tag0 extra hv hf ht0,
      ensureChk_strict_ne _ 0 hne]
    rfl
  · intro v flags tag0 extra hv hf ht0 heq hne
    rw [parseHeader_bytes true v flags tag0 extra hv hf ht0, heq]
    simp [ensureChk, hne, bind, Except.bind]
  · intro v flags tag0 extra hv hf ht0 heq1 heq2 hne
    rw [parseHeader_bytes true v flags tag0 extra hv hf ht0, heq1, heq2]
    simp [ensureChk, hne, bind, Except.bind]
  · intro v flags tag0 extra hv hf ht0
    rw [parseHeader_bytes false v flags tag0 extra hv hf ht0]
    simp [ensureChk_lenient, bind, Except.bind]

/-- Witness for C7: every conjunct applied at concrete inputs — stream id
5, trailing size 99 on a one-byte script tag, flags bytes `0x08`/`0x02`,
`PreviousTagSize0 = 7`, and a fully conforming lenient parse. -/
theorem C7_strict_lenient_validation_witness :
    tagParse true false TAG_TYPE_SCRIPT TagClass.script
        ⟨scriptTagBody [0xAB] 0 5 12, 0⟩ = .error .malformed ∧
    tagParse true false TAG_TYPE_SCRIPT TagClass.script
        ⟨scriptTagBody [0xAB] 0 0 99, 0⟩ = .error .malformed ∧
    (∃ tag fs,
        tagParse false false TAG_TYPE_SCRIPT TagClass.script
          ⟨scriptTagBody [0xAB] 0 5 99, 0⟩ = .ok (tag, fs) ∧
        tag.previous_tag_size = 99 ∧ tag.stream_id = 0 ∧
        tag.size = 1 ∧ tag.timestamp = 0) ∧
    parseHeader true ⟨flvHeaderBytes 1 0x08 0 ++ [], 0⟩ = .error .malformed ∧
    parseHeader true ⟨flvHeaderBytes 1 0x02 0 ++ [], 0⟩ = .error .malformed ∧
    parseHeader true ⟨flvHeaderBytes 1 0x05 7 ++ [], 0⟩ = .error .malformed ∧
    parseHeader false ⟨flvHeaderBytes 1 0x08 7 ++ [], 0⟩ =
      .ok (⟨1, (0x08 : Nat) &&& 0x4 ≠ 0, (0x08 : Nat) &&& 0x1 ≠ 0⟩,
        ⟨flvHeaderBytes 1 0x08 7 ++ [], 13⟩) := by
  refine ⟨?_, ?_, ?_, ?_, ?_, ?_, ?_⟩
  · exact C7_strict_lenient_validation.1 [0xAB] 0 5 12 (by norm_num)
      (by norm_num) (by norm_num) (by norm_num) (by norm_num) (by norm_num)
  · exact C7_strict_lenient_validation.2.1 [0xAB] 0 99 (by norm_num)
      (by norm_num) (by norm_num) (by norm_num) (by norm_num)
  · have := C7_strict_lenient_validation.2.2.1 [0xAB] 0 5 99 (by norm_num)
      (by norm_num) (by norm_num) (by norm_num) (by norm_num)
    simpa using this
  · exact C7_strict_lenient_validation.2.2.2.1 1 0x08 0 [] (by norm_num)
      (by norm_num) (by norm_num) (by decide)
  · exact C7_strict_lenient_validation.2.2.2.2.1 1 0x02 0 [] (by norm_num)
      (by norm_num) (by norm_num) (by decide) (by decide)
  · exact C7_strict_lenient_validation.2.2.2.2.2.1 1 0x05 7 [] (by norm_num)
      (by norm_num) (by norm_num) (by decide) (by decide) (by norm_num)
  · exact C7_strict_lenient_validation.2.2.2.2.2.2 1 0x08 7 [] (by norm_num)
      (by norm_num) (by norm_num)

/-! ## The cutting engine (cut_flv.py)

`cut_file` drives the container iterator tag by tag; the scan-level state
machine below consumes the sequence of successfully parsed tags (each
reduced to the fields the scan reads: variant, timestamp, header offset,
and for video tags the frame type and H.264 packet type) together with how
the iteration ended. -/

/-- The per-tag information the cut scan consumes. -/
inductive ScanTag where
  | audio (timestamp : Int) (offset : Nat)
  | video (timestamp : Int) (offset : Nat) (frame_type : Nat)
      (h264_packet_type : Option Nat)
  | script (timestamp : Int) (offset : Nat)
deriving DecidableEq, Repr

/-- The tag's parsed timestamp. -/
def ScanTag.timestamp : ScanTag → Int
  | .audio ts _ => ts
  | .video ts _ _ _ => ts
  | .script ts _ => ts

/-- The tag's header byte offset. -/
def ScanTag.offset : ScanTag → Nat
  | .audio _ o => o
  | .video _ o _ _ => o
  | .script _ o => o

/-- `isinstance(tag, VideoTag)` (cut_flv.py line 109). -/
def ScanTag.isVideo : ScanTag → Bool
  | .video _ _ _ _ => true
  | _ => false

/-- Python truthiness of `first_media_tag_offset`
(`if not parent.first_media_tag_offset`): `None` and `0` are both falsy. -/
def optFalsy : Option Nat → Bool
  | none => true
  | some 0 => true
  | some (_ + 1) => false

/-- The scan state of `cut_file`: `CuttingFLV.no_video` and
`CuttingFLV.first_media_tag_offset` (cut_flv.py lines 56-58) plus the
loop's trackers (lines 93-95). -/
structure CutState where
  no_video : Bool
  first_media_tag_offset : Option Nat
  last_tag : Option ScanTag
  tag_after_last_tag : Option ScanTag
  first_keyframe_after_start : Option ScanTag
deriving DecidableEq, Repr

/-- The state before any tag is parsed. -/
def initCutState : CutState := ⟨true, none, none, none, none⟩

/-- A tag that claims `first_media_tag_offset`: any audio tag
(`CuttingAudioTag.parse`, lines 20-25), or a video tag whose H.264 packet
type is not the sequence-header type (`CuttingVideoTag.parse`, lines
30-38; a `None` packet type also differs from 0). -/
def isMediaData : ScanTag → Bool
  | .audio _ _ => true
  | .video _ _ _ pt => decide (pt ≠ some H264_PACKET_TYPE_SEQUENCE_HEADER)
  | .script _ _ => false

/-- The parse-time side effects of `CuttingAudioTag.parse` and
`CuttingVideoTag.parse` (cut_flv.py lines 18-38): a video tag first clears
`no_video`, then either variant claims `first_media_tag_offset` while it
is still falsy. -/
def cutParseEffects (st : CutState) (t : ScanTag) : CutState :=
  match t with
  | .audio _ o =>
      if optFalsy st.first_media_tag_offset then
        { st with first_media_tag_offset := some o }
      else st
  | .video _ o _ pt =>
      let st1 := { st with no_video := false }
      if optFalsy st1.first_media_tag_offset ∧
          pt ≠ some H264_PACKET_TYPE_SEQUENCE_HEADER then
        { st1 with first_media_tag_offset := some o }
      else st1
  | .script _ _ => st

/-- The loop body of `cut_file` (cut_flv.py lines 103-114), run after the
tag's parse effects: the zero-timestamp-excluded `last_tag` /
`tag_after_last_tag` accounting, then the keyframe search. -/
def cutLoopBody (startTime endTime : Int) (st : CutState) (t : ScanTag) :
    CutState :=
  let st1 :=
    if t.timestamp ≠ 0 ∧ (t.timestamp ≤ endTime ∨ endTime = -1) then
      { st with last_tag := some t }
    else if st.tag_after_last_tag = none ∧ t.timestamp ≠ 0 then
      { st with tag_after_last_tag := some t }
    else st
  if st1.first_keyframe_after_start = none ∧ t.timestamp > startTime then
    match t with
    | .video _ _ ft pt =>
        if ft = FRAME_TYPE_KEYFRAME ∧ pt = some H264_PACKET_TYPE_NALU then
          { st1 with first_keyframe_after_start := some t }
        else st1
    | _ =>
        if st1.no_video then
          { st1 with first_keyframe_after_start := some t }
        else st1
  else st1

/-- One iteration of the `cut_file` scan: the tag parses (with its
`Cutting*Tag.parse` side effects), then the loop body runs. -/
def cutStep (startTime endTime : Int) (st : CutState) (t : ScanTag) :
    CutState :=
  cutLoopBody startTime endTime (cutParseEffects st t) t

/-- The whole scan of `cut_file` over the successfully parsed tags. -/
def cutScan (startTime endTime : Int) (tags : List ScanTag) : CutState :=
  tags.foldl (cutStep startTime endTime) initCutState

/-- Claim C5's qualification test at one tag, given whether any video tag
occurred among the earlier tags: a video tag qualifies iff its timestamp
exceeds the start time, its frame type is keyframe and its packet type is
NALU; a non-video tag qualifies iff its timestamp exceeds the start time
and no video tag has been observed yet. -/
def qualifiesC5 (startTime : Int) (noVideoBefore : Bool) (t : ScanTag) :
    Bool :=
  match t with
  | .video ts _ ft pt =>
      decide (ts > startTime) && (ft == FRAME_TYPE_KEYFRAME) &&
        (pt == some H264_PACKET_TYPE_NALU)
  | _ => decide (t.timestamp > startTime) && noVideoBefore

/-- The first tag of the list that qualifies under `qualifiesC5`,
threading "no video observed yet" through the traversal. -/
def firstQualifying (startTime : Int) (noVideo : Bool) :
    List ScanTag → Option ScanTag
  | [] => none
  | t :: rest =>
      if qualifiesC5 startTime noVideo t then some t
      else firstQualifying startTime (noVideo && !t.isVideo) rest

/-- How the tag iteration ended: normal `EndOfTags` termination, a
`MalformedFLV`, or an unexpected `EndOfFile`. -/
inductive ScanEnding where
  | ok
  | malformed
  | endOfFile
deriving DecidableEq, Repr

/-- `cut_file` (cut_flv.py lines 91-162) over the scanned tag sequence: a
`MalformedFLV` or `EndOfFile` raised during iteration is caught and
returns `False` before the checks; then the three post-scan checks run in
order (`not flv.first_media_tag_offset`, `not last_tag`,
`not first_keyframe_after_start`); otherwise the byte copy runs and the
function returns `True`. -/
def cutFileOutcome (startTime endTime : Int) (tags : List ScanTag)
    (ending : ScanEnding) : Bool :=
  match ending with
  | .malformed => false
  | .endOfFile => false
  | .ok =>
      let st := cutScan startTime endTime tags
      if optFalsy st.first_media_tag_offset then false
      else if st.last_tag = none then false
      else if st.first_keyframe_after_start = none then false
      else true

/-! ### Projection lemmas for the scan step -/

theorem cutParseEffects_no_video (st : CutState) (t : ScanTag) :
    (cutParseEffects st t).no_video = (st.no_video && !t.isVideo) := by
  cases t <;> simp [cutParseEffects, ScanTag.isVideo] <;> split_ifs <;> rfl

theorem cutParseEffects_keyframe (st : CutState) (t : ScanTag) :
    (cutParseEffects st t).first_keyframe_after_start =
      st.first_keyframe_after_start := by
  cases t <;> simp [cutParseEffects] <;> split_ifs <;> rfl

theorem cutParseEffects_last_tag (st : CutState) (t : ScanTag) :
    (cutParseEffects st t).last_tag = st.last_tag := by
  cases t <;> simp [cutParseEffects] <;> split_ifs <;> rfl

theorem cutParseEffects_first_media (st : CutState) (t : ScanTag) :
    (cutParseEffects st t).first_media_tag_offset =
      (if optFalsy st.first_media_tag_offset ∧ isMediaData t then
        some t.offset
      else st.first_media_tag_offset) := by
  cases t <;>
    simp [cutParseEffects, isMediaData, ScanTag.offset] <;>
    split_ifs <;> simp_all

theorem cutLoopBody_no_video (s e : Int) (st : CutState) (t : ScanTag) :
    (cutLoopBody s e st t).no_video = st.no_video := by
  cases t <;> simp [cutLoopBody] <;> split_ifs <;> rfl

theorem cutLoopBody_first_media (s e : Int) (st : CutState) (t : ScanTag) :
    (cutLoopBody s e st t).first_media_tag_offset =
      st.first_media_tag_offset := by
  cases t <;> simp [cutLoopBody] <;> split_ifs <;> rfl

theorem cutLoopBody_last_tag (s e : Int) (st : CutState) (t : ScanTag) :
    (cutLoopBody s e st t).last_tag =
      (if t.timestamp ≠ 0 ∧ (t.timestamp ≤ e ∨ e = -1) then some t
       else st.last_tag) := by
  cases t <;> simp [cutLoopBody] <;> split_ifs <;> simp_all

theorem cutLoopBody_keyframe (s e : Int) (st : CutState) (t : ScanTag) :
    (cutLoopBody s e st t).first_keyframe_after_start =
      (if st.first_keyframe_after_start = none ∧ qualifiesC5 s st.no_video t
       then some t
       else st.first_keyframe_after_start) := by
  cases t <;>
    simp [cutLoopBody, qualifiesC5, FRAME_TYPE_KEYFRAME,
      H264_PACKET_TYPE_NALU, ScanTag.timestamp] <;>
    split_ifs <;> simp_all

theorem cutStep_no_video (s e : Int) (st : CutState) (t : ScanTag) :
    (cutStep s e st t).no_video = (st.no_video && !t.isVideo) := by
  rw [cutStep, cutLoopBody_no_video, cutParseEffects_no_video]

theorem cutStep_keyframe (s e : Int) (st : CutState) (t : ScanTag) :
    (cutStep s e st t).first_keyframe_after_start =
      (if st.first_keyframe_after_start = none ∧ qualifiesC5 s st.no_video t
       then some t
       else st.first_keyframe_after_start) := by
  rw [cutStep, cutLoopBody_keyframe, cutParseEffects_keyframe,
    cutParseEffects_no_video]
  cases t <;> simp [qualifiesC5, ScanTag.isVideo]

theorem cutStep_last_tag (s e : Int) (st : CutState) (t : ScanTag) :
    (cutStep s e st t).last_tag =
      (if t.timestamp ≠ 0 ∧ (t.timestamp ≤ e ∨ e = -1) then some t
       else st.last_tag) := by
  rw [cutStep, cutLoopBody_last_tag, cutParseEffects_last_tag]

theorem cutStep_first_media (s e : Int) (st : CutState) (t : ScanTag) :
    (cutStep s e st t).first_media_tag_offset =
      (if optFalsy st.first_media_tag_offset ∧ isMediaData t then
        some t.offset
      else st.first_media_tag_offset) := by
  rw [cutStep, cutLoopBody_first_media, cutParseEffects_first_media]

/-! ### Characterizations of the scan results -/

theorem scan_keyframe_stays (s e : Int) (ts : List ScanTag) :
    ∀ (st : CutState) (k : ScanTag),
      st.first_keyframe_after_start = some k →
      (ts.foldl (cutStep s e) st).first_keyframe_after_start = some k := by
  induction ts with
  | nil => intro st k h; simpa using h
  | cons t rest ih =>
      intro st k h
      rw [List.foldl_cons]
      apply ih
      rw [cutStep_keyframe]
      simp [h]

theorem scan_keyframe_aux (s e : Int) (ts : List ScanTag) :
    ∀ (st : CutState), st.first_keyframe_after_start = none →
      (ts.foldl (cutStep s e) st).first_keyframe_after_start =
        firstQualifying s st.no_video ts := by
  induction ts with
  | nil => intro st h; simpa [firstQualifying] using h
  | cons t rest ih =>
      intro st h
      rw [List.foldl_cons]
      by_cases hq : qualifiesC5 s st.no_video t = true
      · have hstep : (cutStep s e st t).first_keyframe_after_start = some t := by
          rw [cutStep_keyframe]
          simp [h, hq]
        rw [scan_keyframe_stays s e rest _ t hstep]
        simp [firstQualifying, hq]
      · have hstep : (cutStep s e st t).first_keyframe_after_start = none := by
          rw [cutStep_keyframe]
          simp [h, hq]
        rw [ih _ hstep, cutStep_no_video]
        simp [firstQualifying, hq]

theorem scan_last_tag_aux (s e : Int) (ts : List ScanTag) :
    ∀ (st : CutState),
      ((ts.foldl (cutStep s e) st).last_tag = none ↔
        (st.last_tag = none ∧
          ∀ t ∈ ts, ¬(t.timestamp ≠ 0 ∧ (t.timestamp ≤ e ∨ e = -1)))) := by
  induction ts with
  | nil => intro st; simp
  | cons t rest ih =>
      intro st
      rw [List.foldl_cons, ih, cutStep_last_tag]
      by_cases hr : t.timestamp ≠ 0 ∧ (t.timestamp ≤ e ∨ e = -1)
      · rw [if_pos hr]
        simp only [List.mem_cons]
        constructor
        · rintro ⟨hsome, -⟩
          exact absurd hsome (by simp)
        · rintro ⟨-, hall⟩
          exact absurd hr (hall t (Or.inl rfl))
      · rw [if_neg hr]
        simp only [List.mem_cons]
        constructor
        · rintro ⟨hnone, hall⟩
          refine ⟨hnone, fun u hu => ?_⟩
          rcases hu with he | hu
          · exact he ▸ hr
          · exact hall u hu
        · rintro ⟨hnone, hall⟩
          exact ⟨hnone, fun u hu => hall u (Or.inr hu)⟩

theorem scan_media_stays (s e : Int) (ts : List ScanTag) :
    ∀ (st : CutState), optFalsy st.first_media_tag_offset = false →
      (ts.foldl (cutStep s e) st).first_media_tag_offset =
        st.first_media_tag_offset := by
  induction ts with
  | nil => intro st _; rfl
  | cons t rest ih =>
      intro st h
      rw [List.foldl_cons]
      have hstep : (cutStep s e st t).first_media_tag_offset =
          st.first_media_tag_offset := by
        rw [cutStep_first_media]
        simp [h]
      rw [ih _ (by rw [hstep]; exact h), hstep]

theorem scan_media_aux (s e : Int) (ts : List ScanTag)
    (hoff : ∀ t ∈ ts, t.offset ≠ 0) :
    ∀ (st : CutState), st.first_media_tag_offset = none →
      (optFalsy (ts.foldl (cutStep s e) st).first_media_tag_offset = true ↔
        ∀ t ∈ ts, isMediaData t = false) := by
  induction ts with
  | nil =>
      intro st h
      simp [h, optFalsy]
  | cons t rest ih =>
      intro st h
      rw [List.foldl_cons]
      by_cases hm : isMediaData t = true
      · have hstep : (cutStep s e st t).first_media_tag_offset =
            some t.offset := by
          rw [cutStep_first_media]
          simp [h, hm, optFalsy]
        have hfalse : optFalsy (cutStep s e st t).first_media_tag_offset =
            false := by
          rw [hstep]
          have := hoff t (List.mem_cons_self t rest)
          cases hofs : t.offset with
          | zero => exact absurd hofs this
          | succ n => simp [optFalsy]
        rw [scan_media_stays s e rest _ hfalse, hfalse]
        simp [hm]
      · have hstep : (cutStep s e st t).first_media_tag_offset = none := by
          rw [cutStep_first_media]
          simp [hm, h]
        rw [ih (fun u hu => hoff u (List.mem_cons_of_mem t hu)) _ hstep]
        simp [hm]

/-- The keyframe characterization shared by claims C5 and C6: the scan's
`first_keyframe_after_start` is the first qualifying tag. -/
theorem scan_keyframe_char (startTime endTime : Int) (tags : List ScanTag) :
    (cutScan startTime endTime tags).first_keyframe_after_start =
      firstQualifying startTime true tags := by
  have h := scan_keyframe_aux startTime endTime tags initCutState rfl
  simpa [cutScan, initCutState] using h

/-! ### Claim C5 -/

/-- C5 (confirmed).  During a cut, `first_keyframe_after_start` is exactly
the first scanned tag that qualifies: a video tag qualifies iff its
timestamp strictly exceeds `start_time`, its frame type is the keyframe
type and its H.264 packet type is NALU (so sequence-header and
AVC-configuration tags — packet type 0 or `None` — never qualify); a
non-video tag qualifies iff its timestamp strictly exceeds `start_time`
and no video tag has been observed earlier in the scan. -/
theorem C5_first_keyframe (startTime endTime : Int) (tags : List ScanTag) :
    (cutScan startTime endTime tags).first_keyframe_after_start =
      firstQualifying startTime true tags :=
  scan_keyframe_char startTime endTime tags

/-! ### Claim C6 -/

/-- C6 (confirmed).  With every tag offset non-zero (tag offsets in a real
stream start past the 13-byte header area, and `cut_file` tests Python
truthiness of the offset), the cut reports failure exactly when: the
iteration ended in a container-level malformation (`MalformedFLV` or
unexpected end of file), or no media tag carrying actual frame data was
scanned (no audio tag, no video tag with packet type other than sequence
header), or no tag has a non-zero timestamp at or before the end time
(`end_time = -1` meaning unbounded), or no qualifying keyframe exists
after `start_time`. -/
theorem C6_cut_failure (startTime endTime : Int) (tags : List ScanTag)
    (ending : ScanEnding) (hoff : ∀ t ∈ tags, t.offset ≠ 0) :
    cutFileOutcome startTime endTime tags ending = false ↔
      (ending ≠ .ok ∨
        (∀ t ∈ tags, isMediaData t = false) ∨
        (∀ t ∈ tags, ¬(t.timestamp ≠ 0 ∧
          (t.timestamp ≤ endTime ∨ endTime = -1))) ∨
        firstQualifying startTime true tags = none) := by
  cases ending with
  | malformed => simp [cutFileOutcome]
  | endOfFile => simp [cutFileOutcome]
  | ok =>
      have hmedia := scan_media_aux startTime endTime tags hoff initCutState rfl
      have hlast := scan_last_tag_aux startTime endTime tags initCutState
      have hkf := scan_keyframe_char startTime endTime tags
      rw [cutScan] at hkf
      have hlast2 : (tags.foldl (cutStep startTime endTime)
          initCutState).last_tag = none ↔
          ∀ t ∈ tags, ¬(t.timestamp ≠ 0 ∧
            (t.timestamp ≤ endTime ∨ endTime = -1)) := by
        rw [hlast]
        simp [initCutState]
      unfold cutFileOutcome
      simp only [cutScan]
      by_cases h1 : optFalsy (tags.foldl (cutStep startTime endTime)
          initCutState).first_media_tag_offset = true
      · exact iff_of_true (by simp [h1])
          (Or.inr (Or.inl (hmedia.mp h1)))
      · by_cases h2 : (tags.foldl (cutStep startTime endTime)
            initCutState).last_tag = none
        · exact iff_of_true (by simp [h1, h2])
            (Or.inr (Or.inr (Or.inl (hlast2.mp h2))))
        · by_cases h3 : (tags.foldl (cutStep startTime endTime)
              initCutState).first_keyframe_after_start = none
          · refine iff_of_true (by simp [h1, h2, h3]) ?_
            rw [← hkf]
            exact Or.inr (Or.inr (Or.inr h3))
          · constructor
            · intro hfalse
              simp [h1, h2, h3] at hfalse
            · rintro (hA | hA | hA | hA)
              · exact absurd rfl hA
              · exact absurd (hmedia.mpr hA) h1
              · exact absurd (hlast2.mpr hA) h2
              · rw [← hkf] at hA
                exact absurd hA h3

/-- Witness for C6: the concrete scan of a zero-timestamp script tag
followed by an audio tag at timestamp 100 (offsets 5 and 9), with
`start_time = 0` and unbounded end time, ended normally. -/
theorem C6_cut_failure_witness :
    cutFileOutcome 0 (-1) [ScanTag.script 0 5, ScanTag.audio 100 9]
        ScanEnding.ok = false ↔
      (ScanEnding.ok ≠ ScanEnding.ok ∨
        (∀ t ∈ [ScanTag.script 0 5, ScanTag.audio 100 9],
          isMediaData t = false) ∨
        (∀ t ∈ [ScanTag.script 0 5, ScanTag.audio 100 9],
          ¬(t.timestamp ≠ 0 ∧ (t.timestamp ≤ -1 ∨ (-1 : Int) = -1))) ∨
        firstQualifying 0 true [ScanTag.script 0 5, ScanTag.audio 100 9] =
          none) :=
  C6_cut_failure 0 (-1) [ScanTag.script 0 5, ScanTag.audio 100 9]
    ScanEnding.ok (by decide)

/-! ### Claim C9 -/

/-- `cut_flv.tag_to_class` (cut_flv.py lines 41-45): only audio, video
and AMF0 script have entries — no type 15. -/
def cutTagToClass (t : Nat) : Option TagClass :=
  if t = TAG_TYPE_AUDIO then some .audio
  else if t = TAG_TYPE_VIDEO then some .video
  else if t = TAG_TYPE_SCRIPT then some .script
  else none

/-- The type-byte read and dispatch of `CuttingFLV.get_next_tag`
(inherited from `FLV.get_next_tag`, with `CuttingFLV.tag_type_to_class`,
cut_flv.py lines 60-64): end of stream is the normal termination, a type
byte without an entry raises `MalformedFLV`. -/
def cutGetTagClass (fs : FS) : Except PErr (Option (TagClass × FS)) :=
  match getUI8 fs with
  | .error _ => .ok none
  | .ok (t, fs) =>
      match cutTagToClass t with
      | none => .error .malformed
      | some cls => .ok (some (cls, fs))

/-- C9 (confirmed).  The cutting engine's dispatch table has no entry for
the script-AMF3 type byte 15, although the general container parser
accepts it: fetching a tag whose type byte is 15 during a cut raises
`MalformedFLV`, and a scan ended by `MalformedFLV` makes `cut_file`
return failure. -/
theorem C9_amf3_rejected_in_cut :
    cutTagToClass TAG_TYPE_SCRIPT_AMF3 = none ∧
    tagToClass TAG_TYPE_SCRIPT_AMF3 = some TagClass.scriptAMF3 ∧
    (∀ (rest : List Nat),
      cutGetTagClass ⟨TAG_TYPE_SCRIPT_AMF3 :: rest, 0⟩ =
        .error .malformed) ∧
    (∀ (startTime endTime : Int) (tags : List ScanTag),
      cutFileOutcome startTime endTime tags .malformed = false) := by
  refine ⟨by decide, by decide, ?_, ?_⟩
  · intro rest
    have hread : getUI8 ⟨TAG_TYPE_SCRIPT_AMF3 :: rest, 0⟩ =
        .ok (TAG_TYPE_SCRIPT_AMF3,
          FS.advance ⟨TAG_TYPE_SCRIPT_AMF3 :: rest, 0⟩ 1) :=
      getUI8_cons _ _ rest (by simp [FS.rest])
    simp only [cutGetTagClass, hread]
    norm_num [cutTagToClass, TAG_TYPE_AUDIO, TAG_TYPE_VIDEO,
      TAG_TYPE_SCRIPT, TAG_TYPE_SCRIPT_AMF3]
  · intro startTime endTime tags
    rfl

/-! ### Claim C10: the frame_num field width

tags.py line 15 sets a module-level `frame_num_width = 4`.  Line 359 of
`SPS.parse_sps_data` executes `frame_num_width = self.log2_max_frame_num`
inside a method body with no `global frame_num_width` declaration, so
Python binds a function-local name and the module global is unchanged.
`NALU.parse_tag_content` (line 264) reads `frame_num` with the
module-level width. -/

/-- The module-level mutable state of tags.py relevant to NALU parsing. -/
structure FlvGlobals where
  frame_num_width : Nat
deriving DecidableEq, Repr

/-- The module state established at import time (tags.py line 15). -/
def initGlobals : FlvGlobals := ⟨frame_num_width⟩

/-- `SPS.parse_sps_data` threaded through the module state: line 359
binds a function-local `frame_num_width` (no `global` declaration), so
the returned module state is the input state. -/
def parseSPSDataG (g : FlvGlobals) (data : List Nat) :
    Option (SPS × FlvGlobals) :=
  (parseSPSData data).map (fun s =>
    let _localFrameNumWidth := s.log2_max_frame_num
    (s, g))

/-- Run a sequence of SPS parses, threading the module state through
(failed parses raise and leave the state alone as well). -/
def runSPSBatch (g : FlvGlobals) : List (List Nat) → FlvGlobals
  | [] => g
  | d :: rest =>
      match parseSPSDataG g d with
      | none => runSPSBatch g rest
      | some (_, g2) => runSPSBatch g2 rest

theorem parseSPSDataG_state (g : FlvGlobals) (d : List Nat) (s : SPS)
    (g2 : FlvGlobals) (h : parseSPSDataG g d = some (s, g2)) : g2 = g := by
  simp only [parseSPSDataG, Option.map_eq_some'] at h
  obtain ⟨s0, -, heq⟩ := h
  have heq2 : (s0, g) = (s, g2) := heq
  exact (congrArg Prod.snd heq2).symm

theorem runSPSBatch_state (datas : List (List Nat)) :
    ∀ g : FlvGlobals, runSPSBatch g datas = g := by
  induction datas with
  | nil => intro g; rfl
  | cons d rest ih =>
      intro g
      unfold runSPSBatch
      cases hp : parseSPSDataG g d with
      | none => exact ih g
      | some p =>
          obtain ⟨s, g2⟩ := p
          rw [parseSPSDataG_state g d s g2 hp]
          exact ih g

/-- In a successfully parsed coded-slice NALU, `frame_num` was read as an
unsigned field of exactly the supplied `frame_num_width` bits. -/
theorem naluParse_frame_num_lt (fnw w : Nat) (fs : FS) (n : NALURec)
    (fs2 : FS) (fn : Nat)
    (h : naluParseContentW fnw w fs = .ok (n, fs2))
    (hfn : n.frame_num = some fn) : fn < 2 ^ fnw := by
  unfold naluParseContentW at h
  simp only [bind, Except.bind] at h
  cases hsz : readSizeW w fs with
  | error e =>
      rw [hsz] at h
      exact absurd h (by simp)
  | ok p =>
      obtain ⟨size, fs1⟩ := p
      rw [hsz] at h
      dsimp only at h
      rcases hru : fs1.readUpTo size with ⟨data, fsb⟩
      rw [hru] at h
      dsimp only at h
      cases hb1 : readBitsN 1 (bytesBits data) with
      | none => rw [hb1] at h; exact absurd h (by simp)
      | some q1 =>
          obtain ⟨forbidden, bits1⟩ := q1
          rw [hb1] at h
          dsimp only at h
          cases hb2 : readBitsN 2 bits1 with
          | none => rw [hb2] at h; exact absurd h (by simp)
          | some q2 =>
              obtain ⟨refIdc, bits2⟩ := q2
              rw [hb2] at h
              dsimp only at h
              cases hb3 : readBitsN 5 bits2 with
              | none => rw [hb3] at h; exact absurd h (by simp)
              | some q3 =>
                  obtain ⟨unitType, bits3⟩ := q3
                  rw [hb3] at h
                  dsimp only at h
                  by_cases ht : unitType = 1 ∨ unitType = 5
                  · rw [if_pos ht] at h
                    cases hsh : readSliceHeader fnw bits3 with
                    | none => rw [hsh] at h; exact absurd h (by simp)
                    | some q4 =>
                        obtain ⟨fmb, st', pps, fnv⟩ := q4
                        rw [hsh] at h
                        dsimp only at h
                        simp only [Except.ok.injEq, Prod.mk.injEq] at h
                        obtain ⟨hn, -⟩ := h
                        subst hn
                        simp only at hfn
                        obtain rfl : fnv = fn := Option.some.injEq _ _ ▸ hfn
                        simp only [readSliceHeader, bind,
                          Option.bind_eq_some] at hsh
                        obtain ⟨⟨a1, b1⟩, h1, hsh⟩ := hsh
                        obtain ⟨⟨a2, b2⟩, h2, hsh⟩ := hsh
                        obtain ⟨⟨a3, b3⟩, h3, hsh⟩ := hsh
                        obtain ⟨⟨a4, b4⟩, h4, hsh⟩ := hsh
                        simp only [Option.some.injEq, Prod.mk.injEq] at hsh
                        obtain ⟨-, -, -, hfnv⟩ := hsh
                        exact hfnv ▸ readBitsN_lt fnw b3 a4 b4 h4
                  · rw [if_neg ht] at h
                    simp only [Except.ok.injEq, Prod.mk.injEq] at h
                    obtain ⟨hn, -⟩ := h
                    subst hn
                    simp only at hfn
                    exact absurd hfn (by simp)

/-- C10 (confirmed).  Whatever sequence of SPS payloads has been parsed,
the module-level `frame_num_width` is still 4 (line 359 binds a local),
so the slice header of every coded-slice NALU parsed with the module
width decodes `frame_num` as a fixed 4-bit unsigned field — its value is
always below 16 and never depends on any `log2_max_frame_num` decoded
from an SPS. -/
theorem C10_frame_num_width (datas : List (List Nat)) (w : Nat) (fs : FS)
    (n : NALURec) (fs2 : FS) (fn : Nat)
    (hparse : naluParseContentW
      (runSPSBatch initGlobals datas).frame_num_width w fs = .ok (n, fs2))
    (hfn : n.frame_num = some fn) :
    (runSPSBatch initGlobals datas).frame_num_width = 4 ∧
    frame_num_width = 4 ∧ fn < 16 := by
  have hg : runSPSBatch initGlobals datas = initGlobals :=
    runSPSBatch_state datas initGlobals
  have h4 : (runSPSBatch initGlobals datas).frame_num_width = 4 := by
    rw [hg]; rfl
  refine ⟨h4, rfl, ?_⟩
  have := naluParse_frame_num_lt _ w fs n fs2 fn hparse hfn
  rw [h4] at this
  exact this

/-- Witness for C10: after parsing the concrete SPS payload `spsCexData`
(whose `log2_max_frame_num` is 4 but could be anything), a type-5 NALU
`[65 F6]` with a 4-byte length prefix decodes `frame_num = 11 < 16`. -/
theorem C10_frame_num_width_witness :
    (runSPSBatch initGlobals [spsCexData]).frame_num_width = 4 ∧
    frame_num_width = 4 ∧ (11 : Nat) < 16 :=
  C10_frame_num_width [spsCexData] 4 ⟨[0, 0, 0, 2, 0x65, 0xF6], 0⟩
    ⟨0, 2, [0x65, 0xF6], 0, 3, 5, 5, some 0, some 0, some 0, some 11⟩
    ⟨[0, 0, 0, 2, 0x65, 0xF6], 6⟩ 11 rfl rfl

end Flvlib
